import Mathlib

/-!
Verification development for the multi-agent simulation / drama-scoring core
of the video-agent repository (src/src/agents/character_agent.py,
src/src/simulation/simulation_engine.py, src/src/drama/drama_operators.py).

Conventions of the shallow embedding:
* Python floats are modelled as exact rationals (`ℚ`); all constants in the
  source are decimal literals, so the arithmetic is the intended real
  arithmetic without floating-point rounding.
* `datetime` values are modelled as rational "hours" on a global clock;
  the source only ever uses differences converted to hours
  (`total_seconds() / 3600`).
* Python dicts are modelled as insertion-ordered association lists; dict
  update rebinds the first matching key, otherwise appends (CPython dict
  semantics).
* `random.*` call sites are modelled as explicit parameters, following the
  spec's instruction that the reimplementation expose an injectable
  randomness source at every such call site.
* Python `max(xs, key=f)` keeps the first maximal element; `pyMax` below
  reproduces that.
* Python `list.sort(key=f)` is a stable ascending sort that evaluates the
  key once per element; `List.mergeSort` with the key order is the unique
  stable sort for that order, hence coincides with it.
-/

/-! ## Generic helpers mirroring Python built-ins -/

/-- Python `max(l, key=key)`: first maximal element; `none` on the empty list
(where CPython raises `ValueError`). -/
def pyMax {α β : Type} [LinearOrder β] (key : α → β) (l : List α) : Option α :=
  l.foldl
    (fun acc p =>
      match acc with
      | none => some p
      | some q => if key q < key p then some p else some q)
    none

/-- Python dict lookup `d.get(k)` on an insertion-ordered association list. -/
def dictGet {K V : Type} [DecidableEq K] (d : List (K × V)) (k : K) : Option V :=
  (d.find? (fun e => e.1 = k)).map (fun e => e.2)

/-- Python dict lookup with default, `d.get(k, v0)`. -/
def dictGetD {K V : Type} [DecidableEq K] (d : List (K × V)) (k : K) (v0 : V) : V :=
  (dictGet d k).getD v0

/-- Python dict assignment `d[k] = v`: rebinds the first matching key, else
appends a new binding (CPython keeps insertion order). -/
def dictSet {K V : Type} [DecidableEq K] (d : List (K × V)) (k : K) (v : V) :
    List (K × V) :=
  match d with
  | [] => [(k, v)]
  | e :: rest => if e.1 = k then (k, v) :: rest else e :: dictSet rest k v

/-- Python `del d[k]`. -/
def dictErase {K V : Type} [DecidableEq K] (d : List (K × V)) (k : K) :
    List (K × V) :=
  d.filter (fun e => ¬ e.1 = k)

/-- Python `k in d`. -/
def dictHas {K V : Type} [DecidableEq K] (d : List (K × V)) (k : K) : Bool :=
  (dictGet d k).isSome

/-- Keys of a dict, in insertion order (`list(d.keys())`). -/
def dictKeys {K V : Type} (d : List (K × V)) : List K :=
  d.map (fun e => e.1)

/-- Values of a dict, in insertion order (`list(d.values())`). -/
def dictValues {K V : Type} (d : List (K × V)) : List V :=
  d.map (fun e => e.2)

/-- Python `s.lower()` on a character list. -/
def pyLower (s : List Char) : List Char :=
  s.map Char.toLower

/-- Python `needle in hay` for strings: contiguous-substring test. -/
def strContains (hay needle : List Char) : Bool :=
  hay.tails.any (fun t => needle.isPrefixOf t)

/-- Python `s.split()`: split on spaces, dropping empty fragments (the
source only ever splits prose built with single spaces). -/
def pyWords (s : List Char) : List (List Char) :=
  (List.splitOnP (fun c => c = ' ') s).filter (fun w => ¬ w = [])

/-- Python `random.choice(l)` with the random draw exposed as an index
(reduced modulo the length, so that any index is a faithful in-range draw;
CPython raises on an empty list, modelled by the default). -/
def pyChoice {α : Type} (l : List α) (i : Nat) (dflt : α) : α :=
  l.getD (i % l.length) dflt

/-! ## Drama operators (src/src/drama/drama_operators.py) -/

namespace Drama

/-- `DramaticOperatorType`: the ten operator categories. -/
inductive DramaticOperatorType
  | reversal
  | foreshadowing
  | callback
  | escalation
  | irony
  | parallel
  | cliffhanger
  | revelation
  | conflict
  | complication
deriving DecidableEq

/-- `.value` of the Python enum member. -/
def DramaticOperatorType.value : DramaticOperatorType → String
  | .reversal => "reversal"
  | .foreshadowing => "foreshadowing"
  | .callback => "callback"
  | .escalation => "escalation"
  | .irony => "irony"
  | .parallel => "parallel"
  | .cliffhanger => "cliffhanger"
  | .revelation => "revelation"
  | .conflict => "conflict"
  | .complication => "complication"

/-- Dataclass `DramaticOperator`. -/
structure DramaticOperator where
  type : DramaticOperatorType
  name : String
  description : String
  intensity : ℚ
  prerequisites : List String := []
  consequences : List String := []
  emotional_impact : List (String × ℚ) := []
deriving DecidableEq

/-- The metadata record `apply` appends to the scene's operator list. -/
structure OpMeta where
  type : String
  name : String
  intensity : ℚ
deriving DecidableEq

/-- The keys of a scene dict that `DramaticOperator.apply` touches.  Python
lists are mutable heap objects shared by reference and `dict.copy()` is a
shallow copy, so the two list-valued entries are modelled as references
(indices) into a `ListHeap`. -/
structure SceneData where
  tension : Option ℚ
  dramatic_operators : Option Nat
  consequences : Option Nat
deriving DecidableEq

/-- The store of list objects that scene dicts reference. -/
structure ListHeap where
  ops : List (List OpMeta)
  cons : List (List String)
deriving DecidableEq

/-- Contents of the scene's `dramatic_operators` entry, read through the
heap (`none` when the key is absent). -/
def readOps (h : ListHeap) (s : SceneData) : Option (List OpMeta) :=
  s.dramatic_operators.map (fun r => h.ops.getD r [])

/-- Contents of the scene's `consequences` entry, read through the heap. -/
def readCons (h : ListHeap) (s : SceneData) : Option (List String) :=
  s.consequences.map (fun r => h.cons.getD r [])

/-- References of a scene dict are live in the heap. -/
def SceneData.WF (h : ListHeap) (s : SceneData) : Prop :=
  (∀ r ∈ s.dramatic_operators, r < h.ops.length) ∧
    (∀ r ∈ s.consequences, r < h.cons.length)

/-- `DramaticOperator.apply(scene_data)`: `modified = scene_data.copy()` is a
shallow copy, so when a list entry already exists the method appends to the
very list object the input scene holds; when absent it allocates a fresh
list.  Returns the updated heap and the returned dict. -/
def DramaticOperator.apply (op : DramaticOperator) (h : ListHeap) (s : SceneData) :
    ListHeap × SceneData :=
  let alloc := match s.dramatic_operators with
    | some r => (h, r)
    | none => ({ h with ops := h.ops ++ [[]] }, h.ops.length)
  let h1 := alloc.1
  let opsRef := alloc.2
  let h2 := { h1 with
    ops := h1.ops.set opsRef
      (h1.ops.getD opsRef [] ++ [OpMeta.mk op.type.value op.name op.intensity]) }
  let current_tension := s.tension.getD (1/2)
  let alloc2 := match s.consequences with
    | some r => (h2, r)
    | none => ({ h2 with cons := h2.cons ++ [[]] }, h2.cons.length)
  let h3 := alloc2.1
  let consRef := alloc2.2
  let h4 := { h3 with
    cons := h3.cons.set consRef (h3.cons.getD consRef [] ++ op.consequences) }
  (h4, { tension := some (min 1 (current_tension + op.intensity * (3/10))),
         dramatic_operators := some opsRef,
         consequences := some consRef })

/-- Library entry `operators["ominous_warning"]`. -/
def ominousWarning : DramaticOperator :=
  { type := .foreshadowing
    name := "Ominous Warning"
    description := "A subtle hint about future danger"
    intensity := 2/5
    prerequisites := []
    consequences := ["future_threat"]
    emotional_impact := [("anxiety", 3/10), ("curiosity", 2/5)] }

/-! ### Plot pattern manager -/

/-- `PlotPatternManager` state: the literal pattern and the cursor.  (The
derived `plot_lines` field, the sorted set of letters, plays no role in
`advance` and is omitted.) -/
structure PlotPatternManager where
  pattern : List Char
  current_index : Nat
deriving DecidableEq

/-- `PlotPatternManager(pattern)`: cursor starts at 0. -/
def PlotPatternManager.init (pattern : List Char) : PlotPatternManager :=
  ⟨pattern, 0⟩

/-- `get_current_plot_line`: resets the cursor to 0 when it has run off the
end, then reads the pattern at the cursor.  (Indexing an empty pattern
raises in Python; the `getD` default is never reached for a non-empty
pattern.) -/
def getCurrentPlotLine (m : PlotPatternManager) : Char × PlotPatternManager :=
  let m1 := if m.pattern.length ≤ m.current_index then { m with current_index := 0 } else m
  (m1.pattern.getD m1.current_index 'A', m1)

/-- `advance()`: returns the current plot line, then increments the cursor. -/
def advance (m : PlotPatternManager) : Char × PlotPatternManager :=
  let r := getCurrentPlotLine m
  (r.1, { r.2 with current_index := r.2.current_index + 1 })

/-- Manager state after `k` calls to `advance()`. -/
def advanceState (m : PlotPatternManager) : Nat → PlotPatternManager
  | 0 => m
  | k + 1 => (advance (advanceState m k)).2

/-- The value returned by the `k`-th call to `advance()` (`k ≥ 1`). -/
def advanceOutput (m : PlotPatternManager) (k : Nat) : Char :=
  (advance (advanceState m (k - 1))).1

/-! ### Dramatic-arc analysis -/

/-- Per-scene tension extraction `s.get("tension", 0.5)`. -/
def sceneTension (s : SceneData) : ℚ :=
  s.tension.getD (1/2)

/-- `tensions = [s.get("tension", 0.5) for s in scenes]`. -/
def arcTensions (scenes : List SceneData) : List ℚ :=
  scenes.map sceneTension

/-- Python `range(1, len(tensions) - 1)`: the interior indices. -/
def interiorIndices (n : Nat) : List Nat :=
  (List.range n).filter (fun i => 0 < i ∧ i + 1 < n)

/-- The `peaks` list of `analyze_dramatic_arc`: `(i, tensions[i])` for each
interior `i` with `tensions[i]` strictly above both neighbours, in index
order. -/
def arcPeaks (ts : List ℚ) : List (Nat × ℚ) :=
  (interiorIndices ts.length).filterMap fun i =>
    if ts.getD (i - 1) 0 < ts.getD i 0 ∧ ts.getD (i + 1) 0 < ts.getD i 0 then
      some (i, ts.getD i 0)
    else none

/-- The `valleys` list of `analyze_dramatic_arc`: strictly below both
neighbours. -/
def arcValleys (ts : List ℚ) : List (Nat × ℚ) :=
  (interiorIndices ts.length).filterMap fun i =>
    if ts.getD i 0 < ts.getD (i - 1) 0 ∧ ts.getD i 0 < ts.getD (i + 1) 0 then
      some (i, ts.getD i 0)
    else none

/-- `has_climax`:
`len(peaks) > 0 and max(peaks, key=lambda x: x[1])[0] > len(scenes) * 0.6` -
the *highest-tension* peak (first such on ties, per Python `max`) must sit
past the 60% mark. -/
def hasClimax (ts : List ℚ) : Bool :=
  match pyMax (fun p : Nat × ℚ => p.2) (arcPeaks ts) with
  | some p => decide ((p.1 : ℚ) > (ts.length : ℚ) * (3/5))
  | none => false

/-- `has_climax` at the scene-list level, as `analyze_dramatic_arc` computes
it. -/
def sceneHasClimax (scenes : List SceneData) : Bool :=
  hasClimax (arcTensions scenes)

end Drama

/-! ## Character agents (src/src/agents/character_agent.py) and the
simulation world data model (src/src/simulation/simulation_engine.py) -/

namespace AgentSim

/-- Enum `AgentState`. -/
inductive AgentState
  | idle
  | perceiving
  | deciding
  | acting
  | reflecting
deriving DecidableEq

/-- Dataclass `Memory`.  `uuid4()` identifiers are modelled as opaque
natural numbers handed in by the caller (the agent keeps a fresh
counter). -/
structure Memory where
  id : Nat
  timestamp : ℚ
  type : String
  content : String
  participants : List String
  location : String
  emotional_valence : ℚ
  importance : ℚ
deriving DecidableEq

/-- `Memory.decay(current_time, decay_rate=0.01)`:
`importance * max(0, 1 - decay_rate * hours_elapsed)`. -/
def Memory.decay (m : Memory) (current_time : ℚ) (decay_rate : ℚ := 1/100) : ℚ :=
  m.importance * max 0 (1 - decay_rate * (current_time - m.timestamp))

/-- Dataclass `Goal`. -/
structure Goal where
  id : String
  description : String
  priority : ℚ
  deadline : Option ℚ
  prerequisites : List String := []
  progress : ℚ := 0
  completed : Bool := false
deriving DecidableEq

/-- `Goal.is_urgent`: deadline closer than 24 hours. -/
def Goal.isUrgent (g : Goal) (current_time : ℚ) : Bool :=
  match g.deadline with
  | none => false
  | some d => decide (d - current_time < 24)

/-- Dataclass `Relationship`.  The key used at the `act` call site can be
`None` (see `Agent.act`), so `character_id` is an `Option`.  A history entry
is the pair of pieces interpolated into the stored string
`"{time}: {interaction_type} interaction"`. -/
structure Relationship where
  character_id : Option String
  character_name : String
  affinity : ℚ
  trust : ℚ
  history : List (ℚ × Option String) := []
  last_interaction : Option ℚ := none
  relationship_type : String := "acquaintance"
deriving DecidableEq

/-- A decision dict produced by `_generate_action_options` / `decide`;
optional fields model keys that are present only on some action types. -/
structure Decision where
  type : String
  description : String
  energy_cost : ℚ := 0
  destination : Option String := none
  target : Option String := none
  target_id : Option String := none
  interaction_type : Option String := none
deriving DecidableEq

/-- The `result["interaction"]` sub-dict built by the `interact` branch of
`act`. -/
structure InteractionInfo where
  target : Option String
  type : Option String
  description : Option String
deriving DecidableEq

/-- The result dict built by `act`.  `target` is doubly optional: the outer
layer is key presence (only the `speak` branch sets it), the inner layer is
the possibly-`None` value `decision.get("target")`. -/
structure ActionResult where
  agent_id : String
  agent_name : String
  action_type : String
  timestamp : ℚ
  location : String
  success : Bool := true
  dialogue : Option String := none
  target : Option (Option String) := none
  new_location : Option String := none
  interaction : Option InteractionInfo := none
  reflection : Option String := none
deriving DecidableEq

/-- `CharacterAgent` state. -/
structure Agent where
  id : String
  name : String
  backstory : String
  personality : List (String × ℚ)
  location : String
  age : Option Int := none
  occupation : Option String := none
  state : AgentState := .idle
  current_action : Option Decision := none
  emotional_state : List (String × ℚ)
  memories : List Memory := []
  working_memory : List Memory := []
  memory_capacity : Nat := 1000
  goals : List Goal := []
  current_goal : Option Goal := none
  relationships : List (Option String × Relationship) := []
  action_history : List ActionResult := []
  decision_threshold : ℚ := 3/5
  reflection_patterns : List String := []
  last_reflection : Option ℚ := none
  next_memory_id : Nat := 0
deriving DecidableEq

/-- The Big-Five trait names, in `PersonalityTrait` enum order. -/
def personalityTraitNames : List String :=
  ["openness", "conscientiousness", "extraversion", "agreeableness", "neuroticism"]

/-- `_validate_personality`: every trait defaulted to 0.5 and clamped to
[0, 1], in enum order. -/
def validatePersonality (p : List (String × ℚ)) : List (String × ℚ) :=
  personalityTraitNames.map (fun t => (t, max 0 (min 1 (dictGetD p t (1/2)))))

/-- Initial `emotional_state` dict from `__init__`, in insertion order. -/
def initialEmotionalState : List (String × ℚ) :=
  [("happiness", 1/2), ("sadness", 0), ("anger", 0),
   ("fear", 0), ("surprise", 0), ("disgust", 0)]

/-- `CharacterAgent.__init__` (the `uuid4` agent id is a caller-supplied
string). -/
def Agent.create (id name backstory : String) (personality : List (String × ℚ))
    (location : String := "unknown") (age : Option Int := none)
    (occupation : Option String := none) : Agent :=
  { id, name, backstory
    personality := validatePersonality personality
    location, age, occupation
    emotional_state := initialEmotionalState }

/-- `_calculate_emotional_valence`. -/
def calcValence (es : List (String × ℚ)) : ℚ :=
  let positive := dictGetD es "happiness" 0 + dictGetD es "surprise" 0 * (1/2)
  let negative := dictGetD es "sadness" 0 + dictGetD es "anger" 0 +
    dictGetD es "fear" 0 + dictGetD es "disgust" 0
  max (-1) (min 1 (positive - negative))

/-- Keyword table of `_calculate_importance`. -/
def importantKeywords : List String :=
  ["danger", "love", "death", "success", "failure", "discovery"]

/-- `_calculate_importance`: base 0.3, +0.2 per keyword occurring as a
substring of the lower-cased content, capped at 1.0. -/
def calcImportance (content : String) : ℚ :=
  min 1 ((3/10) +
    ((importantKeywords.filter
        (fun k => strContains (pyLower content.toList) k.toList)).length : ℚ) * (1/5))

/-- The store-management tail of `_create_memory`: append, and when the
store exceeds `cap`, stable-sort ascending by
`m.importance * m.decay(timestamp)` (the new memory's timestamp is the
current time) and keep the last `cap` entries (`self.memories[-cap:]`). -/
def memoryStoreInsert (cap : Nat) (mems : List Memory) (new : Memory) : List Memory :=
  let ms := mems ++ [new]
  if cap < ms.length then
    (ms.mergeSort (fun m1 m2 =>
        decide (m1.importance * m1.decay new.timestamp ≤
          m2.importance * m2.decay new.timestamp))).drop (ms.length - cap)
  else ms

/-- `_create_memory`: build the `Memory` (fresh id, current location,
current emotional valence) and insert it into the store. -/
def Agent.createMemory (a : Agent) (type content : String) (timestamp : ℚ)
    (importance : ℚ) (participants : List String := []) : Agent :=
  let memory : Memory :=
    { id := a.next_memory_id, timestamp, type, content, participants
      location := a.location
      emotional_valence := calcValence a.emotional_state
      importance }
  { a with memories := memoryStoreInsert a.memory_capacity a.memories memory
           next_memory_id := a.next_memory_id + 1 }

/-- `_update_working_memory`: keep, of the last 100 memories, those whose
lower-cased word set meets the observations' word set, stable-sorted
descending by `importance * decay`, truncated to 20. -/
def updateWorkingMemory (a : Agent) (observations : List String)
    (current_time : ℚ) : Agent :=
  let observation_keywords :=
    observations.foldl (fun acc obs => acc ++ pyWords (pyLower obs.toList)) []
  let candidates := (a.memories.drop (a.memories.length - 100)).filter
    (fun m => (pyWords (pyLower m.content.toList)).any
      (fun w => observation_keywords.contains w))
  let sorted := candidates.mergeSort (fun m1 m2 =>
    decide (m2.importance * m2.decay current_time ≤
      m1.importance * m1.decay current_time))
  { a with working_memory := sorted.take 20 }

/-- `_evaluate_goals`: boost urgent incomplete goals (priority ×1.2 capped
at 1.0) and select the highest-priority incomplete goal (first on ties, as
Python `max`). -/
def evaluateGoals (a : Agent) (current_time : ℚ) : Agent :=
  if a.goals.isEmpty then a
  else
    let goals := a.goals.map (fun g =>
      if ¬ g.completed ∧ g.isUrgent current_time then
        { g with priority := min 1 (g.priority * (6/5)) }
      else g)
    let incomplete := goals.filter (fun g => ¬ g.completed)
    let current := if incomplete.isEmpty then a.current_goal
      else pyMax (fun g : Goal => g.priority) incomplete
    { a with goals := goals, current_goal := current }

/-- `_generate_action_options`. -/
def generateActionOptions (a : Agent) (observations : List String) : List Decision :=
  let options : List Decision :=
    [{ type := "idle", description := "Wait and observe", energy_cost := 0 }]
  let options := options ++
    (if (1:ℚ)/2 < dictGetD a.personality "extraversion" 0 then
      [{ type := "speak", description := "Start a conversation", energy_cost := 1/5 }]
    else [])
  let options := options ++
    [{ type := "move", description := "Go to a different location"
       destination := some "random", energy_cost := 3/10 }]
  let options := options ++
    (if observations.any (fun obs => strContains obs.toList "Sees".toList) then
      [{ type := "interact", description := "Interact with someone nearby"
         interaction_type := some
           (if (1:ℚ)/2 < dictGetD a.personality "agreeableness" 0 then "friendly"
            else "neutral")
         energy_cost := 2/5 }]
    else [])
  options ++
    (if 20 < a.memories.length then
      [{ type := "reflect", description := "Reflect on recent experiences"
         energy_cost := 1/10 }]
    else [])

/-- `_score_action` with the `random.uniform(-0.1, 0.1)` draw passed in as
`noise`.  (`current_time` is a parameter of the source method but is
unused there.) -/
def scoreAction (a : Agent) (action : Decision) (current_time : ℚ) (noise : ℚ) : ℚ :=
  let score : ℚ := 0
  let score :=
    if action.type = "speak" ∨ action.type = "interact" then
      score + dictGetD a.personality "extraversion" 0 * (3/10) +
        dictGetD a.personality "agreeableness" 0 * (1/5)
    else if action.type = "reflect" then
      score + dictGetD a.personality "openness" 0 * (3/10) +
        (1 - dictGetD a.personality "extraversion" 0) * (1/5)
    else score
  let score := match a.current_goal with
    | some g => if ¬ action.type = "idle" then score + g.priority * (2/5) else score
    | none => score
  let score :=
    if (1:ℚ)/2 < dictGetD a.emotional_state "fear" 0 ∧ action.type = "move" then
      score + 3/10
    else if (3:ℚ)/5 < dictGetD a.emotional_state "happiness" 0 ∧
        action.type = "interact" then
      score + 1/5
    else score
  let score :=
    score - action.energy_cost * dictGetD a.personality "conscientiousness" 0 * (1/10)
  score + noise

/-- The literal fallback decision of `decide`. -/
def idleDecision : Decision :=
  { type := "idle", description := "Contemplates quietly" }

/-- The option-scoring loop of `decide`: `best_score` starts at `-inf`, so
the first option always replaces the empty accumulator, and a later option
replaces the best only when its score is strictly greater (Python keeps the
first maximal). -/
def decideFold (a : Agent) (current_time : ℚ) (noise : Nat → ℚ)
    (l : List (Nat × Decision)) : Option (Decision × ℚ) :=
  l.foldl
    (fun acc io =>
      let s := scoreAction a io.2 current_time (noise io.1)
      match acc with
      | none => some (io.2, s)
      | some b => if b.2 < s then some (io.2, s) else acc)
    none

/-- `decide(observations, current_time)`: refresh working memory, evaluate
goals, score the generated options (noise drawn per option, indexed in
iteration order), keep the first best, and fall back to the idle literal
below the 0.6 threshold. -/
def Agent.decide (a : Agent) (observations : List String) (current_time : ℚ)
    (noise : Nat → ℚ) : Agent × Decision :=
  let a := { a with state := AgentState.deciding }
  let a := updateWorkingMemory a observations current_time
  let a := evaluateGoals a current_time
  let options := generateActionOptions a observations
  let best := decideFold a current_time noise options.enum
  let best_action := match best with
    | some b => if b.2 < a.decision_threshold then idleDecision else b.1
    | none => idleDecision
  ({ a with current_action := some best_action }, best_action)

/-- Trigger table of `_update_emotional_state`. -/
def emotionTriggers : List (String × List (String × ℚ)) :=
  [("success", [("happiness", 3/10), ("surprise", 1/10)]),
   ("failure", [("sadness", 1/5), ("anger", 1/10)]),
   ("threat", [("fear", 2/5), ("anger", 1/10)]),
   ("loss", [("sadness", 2/5)]),
   ("expression", [("happiness", 1/10)])]

/-- `_update_emotional_state`: apply the trigger deltas (clamped to 1.0),
then decay every untouched emotion by the 0.95 factor. -/
def updateEmotionalState (es : List (String × ℚ)) (trigger : String)
    (intensity : ℚ) : List (String × ℚ) :=
  let changes := dictGetD emotionTriggers trigger []
  let es := changes.foldl
    (fun es ch => dictSet es ch.1 (min 1 (dictGetD es ch.1 0 + ch.2 * intensity))) es
  es.map (fun e => if dictHas changes e.1 then e else (e.1, e.2 * (19/20)))

/-- The per-interaction-type mutation of `_update_relationship`, plus the
unconditional `last_interaction` / `history` bookkeeping. -/
def applyInteractionToRel (rel : Relationship) (interaction_type : Option String)
    (current_time : ℚ) : Relationship :=
  let rel :=
    if interaction_type = some "friendly" then
      { rel with affinity := min 1 (rel.affinity + 1/10)
                 trust := min 1 (rel.trust + 1/20) }
    else if interaction_type = some "hostile" then
      { rel with affinity := max (-1) (rel.affinity - 1/5)
                 trust := max 0 (rel.trust - 1/10) }
    else if interaction_type = some "collaborative" then
      { rel with affinity := min 1 (rel.affinity + 3/20)
                 trust := min 1 (rel.trust + 1/10) }
    else rel
  { rel with last_interaction := some current_time
             history := rel.history ++ [(current_time, interaction_type)] }

/-- `_update_relationship`: first contact creates the relationship with
affinity 0.0 and trust 0.5 (`character_name = f"Character_{target_id[:8]}"`
raises `TypeError` when `target_id` is `None`), then the interaction type is
applied. -/
def Agent.updateRelationship (a : Agent) (target_id : Option String)
    (interaction_type : Option String) (current_time : ℚ) : Except String Agent :=
  match dictGet a.relationships target_id with
  | some rel =>
    let rels := dictSet a.relationships target_id
      (applyInteractionToRel rel interaction_type current_time)
    Except.ok { a with relationships := rels }
  | none =>
    match target_id with
    | none => Except.error "TypeError: NoneType object is not subscriptable"
    | some tid =>
      let newRel : Relationship :=
        { character_id := target_id
          character_name := "Character_" ++ String.mk (tid.toList.take 8)
          affinity := 0, trust := 1/2 }
      let rels := dictSet a.relationships target_id
        (applyInteractionToRel newRel interaction_type current_time)
      Except.ok { a with relationships := rels }

/-- The `dialogue_templates` table of `_generate_dialogue`. -/
def dialogueTemplates : List (String × List String) :=
  [("greeting", ["Hello there!", "Hi, how are you?", "Good to see you.", "Hey."]),
   ("happy", ["This is wonderful!", "I\x27m feeling great about this.",
              "Things are looking up!", "Couldn\x27t be better!"]),
   ("sad", ["I\x27m not feeling great...", "This is difficult.",
            "I wish things were different.", "It\x27s been tough."]),
   ("angry", ["This is unacceptable!", "I can\x27t believe this.",
              "That\x27s not right!", "I\x27m frustrated."])]

/-- `_generate_dialogue` with the `random.choice` draw passed as an index.
The dominant emotion is the first maximal entry of the emotional-state
dict. -/
def generateDialogue (a : Agent) (choice : Nat) : String :=
  let dominant :=
    ((pyMax (fun e : String × ℚ => e.2) a.emotional_state).map (fun e => e.1)).getD ""
  let dialogue_type :=
    if dominant = "happiness" then "happy"
    else if dominant = "sadness" then "sad"
    else if dominant = "anger" then "angry"
    else "greeting"
  let options := dictGetD dialogueTemplates dialogue_type ["..."]
  let ext := dictGetD a.personality "extraversion" 0
  if ext < 3/10 then
    let short := options.filter (fun o => o.length < 20)
    pyChoice (if short.isEmpty then options.take 1 else short) choice "..."
  else if 7/10 < ext then
    let long := options.filter (fun o => 15 < o.length)
    pyChoice (if long.isEmpty then options.drop (options.length - 1) else long)
      choice "..."
  else pyChoice options choice "..."

/-- `_generate_reflection`: pattern analysis of the last 20 memories.  The
counting dicts keep first-insertion order, so the Python `max` tie-breaks
reproduce exactly. -/
def generateReflection (a : Agent) (current_time : ℚ) : String :=
  let recent := a.memories.drop (a.memories.length - 20)
  let common_locations := recent.foldl
    (fun d m => dictSet d m.location (dictGetD d m.location 0 + 1))
    ([] : List (String × Nat))
  let common_interactions := recent.foldl
    (fun d m => m.participants.foldl (fun d p => dictSet d p (dictGetD d p 0 + 1)) d)
    ([] : List (String × Nat))
  let emotional_trajectory := recent.map (fun m => m.emotional_valence)
  let parts : List String := []
  let parts := parts ++
    (match pyMax (fun e : String × Nat => e.2) common_locations with
     | some e => ["I\x27ve been spending a lot of time at " ++ e.1]
     | none => [])
  let parts := parts ++
    (if emotional_trajectory.isEmpty then []
     else
       let avg := emotional_trajectory.sum / (emotional_trajectory.length : ℚ)
       if 3/10 < avg then ["Things have been going well lately"]
       else if avg < -(3/10) then ["It\x27s been a difficult period"]
       else ["Life has had its ups and downs"])
  let parts := parts ++
    (match pyMax (fun e : String × Nat => e.2) common_interactions with
     | some e => ["My interactions with " ++ e.1 ++ " have been significant"]
     | none => [])
  if parts.isEmpty then "Time passes quietly" else String.intercalate ". " parts

/-- `_analyze_emotional_pattern`. -/
def analyzeEmotionalPattern (memories : List Memory) : String :=
  if memories.isEmpty then "No clear emotional pattern"
  else
    let avg := (memories.map (fun m => m.emotional_valence)).sum / (memories.length : ℚ)
    if 1/2 < avg then "I\x27ve been predominantly happy and content"
    else if 0 < avg then "I\x27ve maintained a generally positive outlook"
    else if -(1/2) < avg then "I\x27ve experienced mixed emotions"
    else "I\x27ve been struggling with negative emotions"

/-- `_analyze_social_pattern` (`unique_people` is a set; only its size is
used). -/
def analyzeSocialPattern (memories : List Memory) : String :=
  let interactions := memories.filter (fun m => m.type = "interaction")
  if interactions.isEmpty then "I\x27ve been mostly alone"
  else
    let unique_people := interactions.foldl
      (fun s m => s ++ m.participants.filter (fun p => ¬ s.contains p)) ([] : List String)
    if 5 < unique_people.length then
      "I\x27ve been very social, interacting with many people"
    else if 2 < unique_people.length then
      "I\x27ve been maintaining relationships with a small group"
    else "I\x27ve been focused on one or two key relationships"

/-- `_analyze_goal_progress` (`completed > total / 2` is Python float
division). -/
def analyzeGoalProgress (a : Agent) : String :=
  if a.goals.isEmpty then "I\x27m living without clear goals"
  else
    let completed := (a.goals.filter (fun g => g.completed)).length
    let total := a.goals.length
    if completed = total then "I\x27ve accomplished all my goals"
    else if (total : ℚ) / 2 < (completed : ℚ) then
      "I\x27m making good progress on my goals"
    else if 0 < completed then
      "I\x27ve made some progress, but have more work to do"
    else "I haven\x27t made progress on my goals"

/-- Table of `_get_top_personality_trait`. -/
def traitDescriptions : List (String × String) :=
  [("openness", "new experiences and ideas"),
   ("conscientiousness", "order and achievement"),
   ("extraversion", "social connection"),
   ("agreeableness", "harmony and cooperation"),
   ("neuroticism", "emotional intensity")]

/-- `_get_top_personality_trait`. -/
def getTopPersonalityTrait (a : Agent) : String :=
  let top := ((pyMax (fun e : String × ℚ => e.2) a.personality).map (fun e => e.1)).getD ""
  dictGetD traitDescriptions top "balance"

/-- `_get_next_focus`. -/
def getNextFocus (a : Agent) : String :=
  if (match a.current_goal with
      | some g => decide (g.progress < 1/2)
      | none => false) then
    "focus on " ++ ((a.current_goal.map (fun g => g.description)).getD "")
  else if 1/2 < dictGetD a.emotional_state "sadness" 0 then
    "find ways to improve my mood"
  else if a.relationships.length < 2 then "build more connections"
  else "maintain my current path"

/-- `_synthesize_reflection`. -/
def synthesizeReflection (a : Agent) (emotional social goal : String) : String :=
  emotional ++ ". " ++ social ++ ". " ++ goal ++ ". " ++
    "As someone who values " ++ getTopPersonalityTrait a ++ ", " ++
    "I need to " ++ getNextFocus a ++ "."

/-- The insights dict returned by `reflect`. -/
structure Insights where
  timestamp : ℚ
  emotional_insight : String
  social_insight : String
  goal_insight : String
  overall_reflection : String
deriving DecidableEq

/-- `reflect(current_time, force)`: no-op within 3 hours of the previous
reflection unless forced; otherwise synthesize an insight from the last 50
memories and store it as an importance-0.8 `reflection` memory. -/
def Agent.reflect (a : Agent) (current_time : ℚ) (force : Bool := false) :
    Agent × Option Insights :=
  let recent_enough : Bool :=
    match a.last_reflection with
    | some lr => Decidable.decide (current_time - lr < 3)
    | none => false
  let skip : Bool := !force && recent_enough
  if skip then (a, none)
  else
    let a := { a with state := AgentState.reflecting }
    let recent := a.memories.drop (a.memories.length - 50)
    let emotional := analyzeEmotionalPattern recent
    let social := analyzeSocialPattern recent
    let goal := analyzeGoalProgress a
    let overall := synthesizeReflection a emotional social goal
    let insights : Insights :=
      { timestamp := current_time, emotional_insight := emotional
        social_insight := social, goal_insight := goal
        overall_reflection := overall }
    let a := a.createMemory "reflection" overall current_time (4/5)
    ({ a with reflection_patterns := a.reflection_patterns ++ [overall]
              last_reflection := some current_time
              state := AgentState.idle },
     some insights)

/-! ### World model and engine state (simulation_engine.py) -/

/-- Dataclass `Location`. -/
structure Location where
  name : String
  description : String
  capacity : Nat := 10
  location_type : String := "generic"
  connected_to : List String := []
  objects : List String := []
  current_agents : List String := []
deriving DecidableEq

/-- Dataclass `Event`.  `participants` entries can be `None` at the engine's
own call sites (`action_result.get("target")` is `None` for `speak`), hence
`Option String`. -/
structure Event where
  timestamp : ℚ
  event_type : String
  description : String
  participants : List (Option String)
  location : String
  impact : ℚ := 1/2
  consequences : List String := []
deriving DecidableEq

/-- The per-agent summary placed in `agents_at_location` by
`_get_environment_state`. -/
structure AgentView where
  id : String
  name : String
  emotional_state : String
deriving DecidableEq

/-- The environment snapshot dict passed to `perceive` / `act`. -/
structure Environment where
  agents_at_location : List (String × List AgentView)
  locations : List (String × Location)
  recent_events : List Event
  current_time : ℚ
  narrative_tension : ℚ

/-- `perceive(environment, current_time)`.  The relevance filter
`self._is_relevant_event` is called but nowhere defined in the repository;
the spec says only that recent global events are filtered by a relevance
predicate, so it is taken as the parameter `relevant`
(modelled from the spec). -/
def Agent.perceive (relevant : Event → Bool) (a : Agent) (env : Environment)
    (current_time : ℚ) : Agent × List String :=
  let a := { a with state := AgentState.perceiving }
  let agents_here := dictGetD env.agents_at_location a.location []
  let obs1 := (agents_here.filter (fun v => ¬ v.id = a.id)).map
    (fun v => "Sees " ++ v.name ++ " who appears " ++ v.emotional_state)
  let obs2 := (env.recent_events.filter relevant).map (fun e => e.description)
  let obs3 := match dictGet env.locations a.location with
    | some loc => ["At " ++ a.location ++ ": " ++ loc.description]
    | none => []
  let observations := obs1 ++ obs2 ++ obs3
  let a := observations.foldl
    (fun a obs => a.createMemory "event" obs current_time (calcImportance obs)) a
  (a, observations)

/-- `act(decision, environment, current_time)`.  The `interact` branch calls
`_update_relationship` with `decision.get("target_id")`, which is `None` for
every option `_generate_action_options` produces, so that branch can raise
(propagated via `Except`).  The `random.choice` of `_generate_dialogue` is
the `dialogue_choice` parameter. -/
def Agent.act (a : Agent) (decision : Decision) (env : Environment)
    (current_time : ℚ) (dialogue_choice : Nat) :
    Except String (Agent × ActionResult) :=
  let a := { a with state := AgentState.acting }
  let action_type := decision.type
  let base : ActionResult :=
    { agent_id := a.id, agent_name := a.name, action_type
      timestamp := current_time, location := a.location, success := true }
  let branch : Except String (Agent × ActionResult) :=
    if action_type = "speak" then
      let d := generateDialogue a dialogue_choice
      let a := { a with emotional_state :=
        updateEmotionalState a.emotional_state "expression" (1/10) }
      Except.ok (a, { base with dialogue := some d, target := some decision.target })
    else if action_type = "move" then
      match decision.destination with
      | some dest =>
        if ¬ dest = "" ∧ dictHas env.locations dest then
          Except.ok ({ a with location := dest }, { base with new_location := some dest })
        else Except.ok (a, base)
      | none => Except.ok (a, base)
    else if action_type = "interact" then
      let info : InteractionInfo :=
        { target := decision.target_id, type := decision.interaction_type
          description := some decision.description }
      (a.updateRelationship decision.target_id decision.interaction_type
          current_time).map
        (fun a2 => (a2, { base with interaction := some info }))
    else if action_type = "reflect" then
      let r := generateReflection a current_time
      Except.ok ({ a with state := AgentState.reflecting },
        { base with reflection := some r })
    else Except.ok (a, base)
  branch.map (fun p =>
    let a2 := p.1
    let result := p.2
    let a2 := { a2 with action_history := a2.action_history ++ [result] }
    let a2 := a2.createMemory "interaction" ("I " ++ decision.description)
      current_time (1/2)
    (a2, result))

/-- One entry of the `locations` list of a world configuration. -/
structure LocationConfig where
  name : String
  description : String
  type : Option String := none
  capacity : Option Nat := none
deriving DecidableEq

/-- A world configuration (`world_config`). -/
structure WorldConfig where
  locations : List LocationConfig
  connections : List (List String)
  global_rules : List String
deriving DecidableEq

/-- `_default_world_config()`. -/
def defaultWorldConfig : WorldConfig :=
  { locations :=
      [{ name := "Office"
         description := "A modern open-plan office with glass walls"
         type := some "office", capacity := some 20 },
       { name := "Conference Room"
         description := "A meeting room with a large table and projector"
         type := some "office", capacity := some 10 },
       { name := "Cafeteria"
         description := "A bright cafeteria with coffee and snacks"
         type := some "public", capacity := some 30 },
       { name := "Server Room"
         description := "A cold room filled with humming servers"
         type := some "restricted", capacity := some 5 }]
    connections :=
      [["Office", "Conference Room"],
       ["Office", "Cafeteria"],
       ["Conference Room", "Cafeteria"],
       ["Office", "Server Room"]]
    global_rules :=
      ["Agents need rest after 8 hours of activity",
       "Conflict increases narrative tension",
       "Collaboration decreases tension but builds relationships"] }

/-- Rebind the first matching key through `f` (in-place mutation of a dict
value in Python). -/
def dictModify {K V : Type} [DecidableEq K] (d : List (K × V)) (k : K) (f : V → V) :
    List (K × V) :=
  match d with
  | [] => []
  | e :: rest => if e.1 = k then (e.1, f e.2) :: rest else e :: dictModify rest k f

/-- `_initialize_world`: build the location dict, then append both ends of
every well-formed connection (length-2 with both names present) to the
respective adjacency lists. -/
def initializeWorld (cfg : WorldConfig) : List (String × Location) :=
  let locs := cfg.locations.foldl
    (fun d lc => dictSet d lc.name
      { name := lc.name, description := lc.description
        capacity := lc.capacity.getD 10
        location_type := lc.type.getD "generic" })
    []
  cfg.connections.foldl
    (fun d conn =>
      if conn.length = 2 ∧ dictHas d (conn.getD 0 "") ∧ dictHas d (conn.getD 1 "") then
        let d := dictModify d (conn.getD 0 "")
          (fun l => { l with connected_to := l.connected_to ++ [conn.getD 1 ""] })
        dictModify d (conn.getD 1 "")
          (fun l => { l with connected_to := l.connected_to ++ [conn.getD 0 ""] })
      else d)
    locs

/-- `SimulationEngine` state. -/
structure EngineState where
  time_step_minutes : Nat := 15
  agents : List (String × Agent) := []
  locations : List (String × Location)
  events : List Event := []
  current_time : ℚ
  time_step_count : Nat := 0
  narrative_tension : ℚ := 1/2
  plot_threads : List String := []
  dramatic_peaks : List (ℚ × ℚ) := []
  agent_action_counts : List (String × Nat) := []
deriving DecidableEq

/-- `SimulationEngine.__init__` with a supplied or default world config. -/
def EngineState.create (world_config : Option WorldConfig)
    (time_step_minutes : Nat := 15) (start_time : ℚ := 0) : EngineState :=
  { time_step_minutes
    locations := initializeWorld (world_config.getD defaultWorldConfig)
    current_time := start_time }

/-- `remove_agent(agent_id)`: silently a no-op when the id is unknown; when
known, removes the agent from its location's occupant list (Python
`list.remove` raises `ValueError` when absent) and deletes the table
entry. -/
def removeAgent (s : EngineState) (agent_id : String) : Except String EngineState :=
  match dictGet s.agents agent_id with
  | none => Except.ok s
  | some agent =>
    let afterLoc : Except String EngineState :=
      match dictGet s.locations agent.location with
      | some loc =>
        if agent_id ∈ loc.current_agents then
          let locs := dictModify s.locations agent.location
            (fun l => { l with current_agents := l.current_agents.erase agent_id })
          Except.ok { s with locations := locs }
        else Except.error "ValueError: list.remove(x): x not in list"
      | none => Except.ok s
    afterLoc.map (fun s2 => { s2 with agents := dictErase s2.agents agent_id })

/-- `_update_narrative_tension(events)`: decay by 0.98 on an empty step,
otherwise add 0.1 x total impact capped at 1.0; always clamp to [0, 1]. -/
def updateNarrativeTension (tension : ℚ) (events : List Event) : ℚ :=
  let t :=
    if events.isEmpty then tension * (49/50)
    else min 1 (tension + (events.map (fun e => e.impact)).sum * (1/10))
  max 0 (min 1 t)

/-- One entry of the `dramatic_templates` table. -/
structure DramaticTemplate where
  type : String
  description : String
  impact : ℚ
deriving DecidableEq

/-- `dramatic_templates` of `_inject_dramatic_event`. -/
def dramaticTemplates : List DramaticTemplate :=
  [{ type := "conflict", description := "A heated argument breaks out", impact := 7/10 },
   { type := "revelation", description := "A secret is revealed", impact := 4/5 },
   { type := "crisis", description := "An urgent problem arises", impact := 9/10 },
   { type := "opportunity", description := "An unexpected opportunity appears"
     impact := 3/5 }]

/-- `_inject_dramatic_event`: template chosen by `random.choice`
(`template_choice` index), participants by `random.sample` (the `sample`
parameter), location the most populated one (first on ties, per Python
`max`; `max` raises on an engine without locations). -/
def injectDramaticEvent (s : EngineState) (template_choice : Nat)
    (sample : List String → List String) : Except String Event :=
  let template := pyChoice dramaticTemplates template_choice
    { type := "", description := "", impact := 0 }
  let participants :=
    if 2 ≤ s.agents.length then sample (dictKeys s.agents)
    else dictKeys s.agents
  match pyMax
      (fun name =>
        (dictGetD s.locations name
          { name := "", description := "" }).current_agents.length)
      (dictKeys s.locations) with
  | none => Except.error "ValueError: max() arg is an empty sequence"
  | some busiest =>
    Except.ok
      { timestamp := s.current_time, event_type := template.type
        description := template.description
        participants := participants.map some
        location := busiest, impact := template.impact }

/-- `_describe_emotional_state`: the first dominant emotion mapped to a
coarse label. -/
def describeEmotionalState (es : List (String × ℚ)) : String :=
  match pyMax (fun e : String × ℚ => e.2) es with
  | none => "neutral"
  | some d =>
    if d.2 < 3/10 then "neutral"
    else if d.1 = "happiness" then (if d.2 < 7/10 then "happy" else "joyful")
    else if d.1 = "sadness" then (if d.2 < 7/10 then "sad" else "depressed")
    else if d.1 = "anger" then (if d.2 < 7/10 then "annoyed" else "angry")
    else if d.1 = "fear" then (if d.2 < 7/10 then "nervous" else "terrified")
    else d.1

/-- `_get_environment_state`: agents grouped per location (skipping ids no
longer in the table), the location dict, the last 10 events, the clock and
the tension. -/
def getEnvironmentState (s : EngineState) : Environment :=
  { agents_at_location := s.locations.map (fun e =>
      (e.1, e.2.current_agents.filterMap (fun aid =>
        (dictGet s.agents aid).map (fun ag =>
          AgentView.mk ag.id ag.name (describeEmotionalState ag.emotional_state)))))
    locations := s.locations
    recent_events := s.events.drop (s.events.length - 10)
    current_time := s.current_time
    narrative_tension := s.narrative_tension }

/-- `_create_event_from_action`: synthesize an `Event` from a non-idle
action result (`None` for `reflect` and unknown types).  `agent` is the
post-`act` agent object, so `agent.location` is the updated location. -/
def createEventFromAction (current_time : ℚ) (agent : Agent) (r : ActionResult) :
    Option Event :=
  if r.action_type = "speak" then
    some { timestamp := current_time, event_type := "dialogue"
           description := agent.name ++ " says: " ++ (r.dialogue.getD "...")
           participants := [some agent.id, r.target.getD (some "")]
           location := agent.location, impact := 3/10 }
  else if r.action_type = "move" then
    some { timestamp := current_time, event_type := "movement"
           description := agent.name ++ " moves to " ++ (r.new_location.getD "None")
           participants := [some agent.id]
           location := agent.location, impact := 1/10 }
  else if r.action_type = "interact" then
    let info := r.interaction.getD { target := none, type := none, description := none }
    some { timestamp := current_time, event_type := "interaction"
           description := info.description.getD (agent.name ++ " interacts")
           participants := [some agent.id, info.target]
           location := agent.location, impact := 2/5 }
  else none

/-- `_update_environment`: occupancy bookkeeping after a successful move.
NB the source reads `old_location = agent.location` *after* `act` already
moved the agent, so the removal targets the new location. -/
def updateEnvironment (s : EngineState) (agent : Agent) (r : ActionResult) :
    EngineState :=
  if r.action_type = "move" then
    let old_location := agent.location
    match r.new_location with
    | some new_location =>
      if ¬ new_location = "" ∧ dictHas s.locations new_location then
        let s :=
          if agent.id ∈ (dictGetD s.locations old_location
              { name := "", description := "" }).current_agents then
            let locs := dictModify s.locations old_location
              (fun l => { l with current_agents := l.current_agents.erase agent.id })
            { s with locations := locs }
          else s
        let locs := dictModify s.locations new_location
          (fun l => { l with current_agents := l.current_agents ++ [agent.id] })
        { s with locations := locs }
      else s
    | none => s
  else s

/-- The per-agent randomness consumed during one agent's turn in a step. -/
structure AgentRand where
  decisionNoise : Nat → ℚ
  dialogueChoice : Nat
  reflectCoin : Bool

/-- The randomness consumed by one `_simulation_step` (plus the
`random.shuffle` of the agent order, taken as a list rearranger). -/
structure StepRand where
  shuffle : List Agent → List Agent
  agentRand : Nat → AgentRand
  injectCoin : Bool
  templateChoice : Nat
  sample : List String → List String

/-- The body of the per-agent loop of `_simulation_step`:
perceive -> decide -> act, bump the action counter, synthesize an event for
non-idle actions (appended to the step list and the global log), update
occupancy, and reflect on a 10% coin.  Errors raised by `act` propagate. -/
def agentTurn (relevant : Event → Bool) (env : Environment) (rand : AgentRand)
    (acc : EngineState × List Event) (agent0 : Agent) :
    Except String (EngineState × List Event) :=
  let s := acc.1
  let p := Agent.perceive relevant agent0 env s.current_time
  let a1 := p.1
  let observations := p.2
  let d := a1.decide observations s.current_time rand.decisionNoise
  let a2 := d.1
  let decision := d.2
  match a2.act decision env s.current_time rand.dialogueChoice with
  | Except.error e => Except.error e
  | Except.ok (a3, action_result) =>
    let counts := dictSet s.agent_action_counts a3.id
      (dictGetD s.agent_action_counts a3.id 0 + 1)
    let s := { s with agent_action_counts := counts }
    let evOpt :=
      if ¬ action_result.action_type = "idle" then
        createEventFromAction s.current_time a3 action_result
      else none
    let stepEvents := acc.2 ++ evOpt.toList
    let s := { s with events := s.events ++ evOpt.toList }
    let s := updateEnvironment s a3 action_result
    let a4 := if rand.reflectCoin then (a3.reflect s.current_time).1 else a3
    let s := { s with agents := dictSet s.agents a4.id a4 }
    Except.ok (s, stepEvents)

/-- `_simulation_step`.  Returns the new engine state, the `step_events`
list the method returns, the exact list that was passed to
`_update_narrative_tension` (the agent-generated events of the step), and
the injected dramatic event, if any.  The injection happens *after* the
tension update. -/
def simulationStep (relevant : Event → Bool) (rand : StepRand) (s : EngineState) :
    Except String (EngineState × List Event × List Event × Option Event) :=
  let env := getEnvironmentState s
  let agent_order := rand.shuffle (dictValues s.agents)
  let loop := agent_order.enum.foldl
    (fun (acc : Except String (EngineState × List Event)) ia =>
      match acc with
      | Except.error e => Except.error e
      | Except.ok st => agentTurn relevant env (rand.agentRand ia.1) st ia.2)
    (Except.ok (s, []))
  match loop with
  | Except.error e => Except.error e
  | Except.ok (s1, agentEvents) =>
    let s2 := { s1 with
      narrative_tension := updateNarrativeTension s1.narrative_tension agentEvents }
    if s2.narrative_tension < 3/10 ∧ rand.injectCoin then
      match injectDramaticEvent s2 rand.templateChoice rand.sample with
      | Except.error e => Except.error e
      | Except.ok ev =>
        Except.ok ({ s2 with events := s2.events ++ [ev] },
          agentEvents ++ [ev], agentEvents, some ev)
    else Except.ok (s2, agentEvents, agentEvents, none)

/-- The observable trace of one completed simulation step. -/
structure StepTrace where
  tensionInput : List Event
  injected : Option Event
deriving DecidableEq

/-- The per-step part of `run_simulation`: advance the clock, run
`_simulation_step`, record a dramatic peak above 0.8; collect each
completed step's trace.  An error aborts the run. -/
def runSteps (relevant : Event → Bool) :
    List StepRand → EngineState → Except String EngineState × List StepTrace
  | [], s => (Except.ok s, [])
  | r :: rs, s =>
    let s0 := { s with
      current_time := s.current_time + (s.time_step_minutes : ℚ) / 60
      time_step_count := s.time_step_count + 1 }
    match simulationStep relevant r s0 with
    | Except.error e => (Except.error e, [])
    | Except.ok (s1, _stepEvents, tensionInput, injected) =>
      let s2 :=
        if 4/5 < s1.narrative_tension then
          { s1 with dramatic_peaks :=
            s1.dramatic_peaks ++ [(s1.current_time, s1.narrative_tension)] }
        else s1
      let rest := runSteps relevant rs s2
      (rest.1, { tensionInput := tensionInput, injected := injected } :: rest.2)

/-! ### Concrete instances used by the claims -/

/-- Placeholder memory for out-of-range `getD` reads. -/
def dummyMemory : Memory :=
  { id := 0, timestamp := 0, type := "", content := "", participants := []
    location := "", emotional_valence := 0, importance := 0 }

/-- The memory store contents after the first `k` of the given insertions,
each performed by `_create_memory` on a store of capacity `cap`. -/
def storeAfter (cap : Nat) (inserts : List Memory) (k : Nat) : List Memory :=
  (inserts.take k).foldl (memoryStoreInsert cap) []

/-- `e` is evicted by insertion number `k` (0-based): it is present just
after the append but absent from the resulting store. -/
def EvictedAt (cap : Nat) (inserts : List Memory) (k : Nat) (e : Memory) : Prop :=
  e ∈ storeAfter cap inserts k ++ [inserts.getD k dummyMemory] ∧
    e ∉ storeAfter cap inserts (k + 1)

/-- The claim under test for C2: with capacity 1000 and 1050 insertions the
final store has exactly 1000 entries, and at each eviction every retained
entry's decayed-importance score (`Memory.decay` at the eviction time, the
inserted memory's timestamp) is at least every evicted entry's score. -/
def memoryEvictionClaim (inserts : List Memory) : Prop :=
  (storeAfter 1000 inserts 1050).length = 1000 ∧
    ∀ k < 1050, ∀ e, EvictedAt 1000 inserts k e →
      ∀ r ∈ storeAfter 1000 inserts (k + 1),
        e.decay ((inserts.getD k dummyMemory).timestamp) ≤
          r.decay ((inserts.getD k dummyMemory).timestamp)

/-- An old but important memory: decayed-importance 9/20 at hour 50, sort
key (importance x decayed-importance) 81/200. -/
def oldStrongMemory : Memory :=
  { id := 2, timestamp := 0, type := "event", content := "", participants := []
    location := "Office", emotional_valence := 0, importance := 9/10 }

/-- Fresh medium-importance memory: decayed-importance 1/2 at hour 50, sort
key 1/4 - the unique sort-key minimum in the C2 scenario, yet the highest
decayed-importance score among the non-filler entries. -/
def freshMediumMemory : Memory :=
  { id := 1, timestamp := 50, type := "event", content := "", participants := []
    location := "Office", emotional_valence := 0, importance := 1/2 }

/-- Filler memory (importance 1, fresh at hour 50): sort key 1. -/
def fillerMemory : Memory :=
  { id := 0, timestamp := 50, type := "event", content := "", participants := []
    location := "Office", emotional_valence := 0, importance := 1 }

/-- Tail filler for the remaining insertions. -/
def tailFillerMemory : Memory :=
  { id := 3, timestamp := 50, type := "event", content := "", participants := []
    location := "Office", emotional_valence := 0, importance := 1 }

/-- The 1050-insertion scenario refuting C2: the old strong memory, 999
fillers, the fresh medium memory (eviction number 1000 evicts it), and 49
more fillers. -/
def c2Inserts : List Memory :=
  oldStrongMemory :: (List.replicate 999 fillerMemory ++
    freshMediumMemory :: List.replicate 49 tailFillerMemory)

/-- A concrete agent for exercising `decide`/`act`: introverted, fearful,
carefree, with one maximal-priority goal, standing in the default world. -/
def moveyAgent : Agent :=
  { id := "agent-1", name := "Ava", backstory := ""
    personality := validatePersonality
      [("openness", 0), ("conscientiousness", 0), ("extraversion", 3/10),
       ("agreeableness", 0), ("neuroticism", 0)]
    location := "Office"
    emotional_state :=
      [("happiness", 1/2), ("sadness", 0), ("anger", 0),
       ("fear", 3/5), ("surprise", 0), ("disgust", 0)]
    goals := [{ id := "g1", description := "finish the report", priority := 1
                deadline := none }] }

/-- Environment snapshot over the default world with nobody around. -/
def defaultWorldEnv : Environment :=
  { agents_at_location := []
    locations := initializeWorld defaultWorldConfig
    recent_events := []
    current_time := 0
    narrative_tension := 1/2 }

/-- An agentless engine over the default world with low tension 0.2. -/
def quietEngine : EngineState :=
  { locations := initializeWorld defaultWorldConfig
    current_time := 0
    narrative_tension := 1/5 }

/-- Deterministic per-agent randomness (zero noise, first choice, no forced
reflection). -/
def trivialAgentRand : AgentRand :=
  { decisionNoise := fun _ => 0, dialogueChoice := 0, reflectCoin := false }

/-- A step whose injection coin comes up heads and whose template draw is
the first (conflict) template. -/
def injectStepRand : StepRand :=
  { shuffle := id, agentRand := fun _ => trivialAgentRand
    injectCoin := true, templateChoice := 0, sample := id }

/-- The relevance predicate accepting every event. -/
def relevantAll : Event → Bool := fun _ => true

/-- The dramatic event injected into `quietEngine` on the first step. -/
def injectedConflictEvent : Event :=
  { timestamp := 1/4, event_type := "conflict"
    description := "A heated argument breaks out"
    participants := [], location := "Office", impact := 7/10 }

end AgentSim

namespace Drama

/-- Ten scenes whose only late peak (index 8, tension 0.3) lies in the
final 40% while the highest peak (index 1, tension 0.9) is early. -/
def lateSmallPeakScenes : List SceneData :=
  [1/10, 9/10, 1/10, 1/10, 1/10, 1/10, 1/10, 1/10, 3/10, 1/10].map
    (fun v => { tension := some v, dramatic_operators := none, consequences := none })

/-- A heap containing one (empty) operator list. -/
def aliasedHeap : ListHeap :=
  { ops := [[]], cons := [] }

/-- A scene whose `dramatic_operators` key already holds (a reference to)
that list. -/
def aliasedScene : SceneData :=
  { tension := some (1/2), dramatic_operators := some 0, consequences := none }

end Drama

namespace AgentSim

/-- An event of impact 1.0 (as a lone event of a step). -/
def unitImpactEvent : Event :=
  { timestamp := 0, event_type := "interaction", description := ""
    participants := [], location := "Office", impact := 1 }

end AgentSim

/-! ## Theorems -/

/-- `(m+1) % L` expressed through `m % L`, as the `PlotPatternManager`
cursor computes it. -/
theorem succ_mod_via_reset (L m : Nat) (hL : 0 < L) :
    (m + 1) % L = if L ≤ m % L + 1 then 0 else m % L + 1 := by
  have h1 : m % L < L := Nat.mod_lt _ hL
  have h2 : (m + 1) % L = (m % L + 1) % L := (Nat.mod_add_mod m L 1).symm
  by_cases h : L ≤ m % L + 1
  · have hEq : m % L + 1 = L := by omega
    rw [if_pos h, h2, hEq, Nat.mod_self]
  · rw [if_neg h, h2, Nat.mod_eq_of_lt (by omega)]

namespace Drama

/-- `advance` leaves the pattern unchanged and steps the cursor through a
reset-then-increment. -/
theorem advance_next_state (m : PlotPatternManager) :
    (advance m).2 = PlotPatternManager.mk m.pattern
      ((if m.pattern.length ≤ m.current_index then 0 else m.current_index) + 1) := by
  unfold advance getCurrentPlotLine
  by_cases h : m.pattern.length ≤ m.current_index <;> simp [h]

/-- The value `advance` returns, as a function of the incoming state. -/
theorem advance_output_val (m : PlotPatternManager) :
    (advance m).1 = m.pattern.getD
      (if m.pattern.length ≤ m.current_index then 0 else m.current_index) 'A' := by
  unfold advance getCurrentPlotLine
  by_cases h : m.pattern.length ≤ m.current_index <;> simp [h]

/-- Cursor value after `k` calls to `advance` from a fresh manager. -/
theorem advanceState_init_spec (p : List Char) (hp : p ≠ []) (k : Nat) :
    advanceState (PlotPatternManager.init p) k =
      PlotPatternManager.mk p (if k = 0 then 0 else (k - 1) % p.length + 1) := by
  have hL : 0 < p.length := List.length_pos.mpr hp
  induction k with
  | zero => rfl
  | succ n ih =>
    show (advance (advanceState (PlotPatternManager.init p) n)).2 = _
    rw [ih, advance_next_state]
    rcases Nat.eq_zero_or_pos n with hn | hn
    · subst hn
      simp [Nat.not_le.mpr hL, Nat.zero_mod]
    · have hn' : ¬ n = 0 := by omega
      have hsub : n - 1 + 1 = n := by omega
      simp only [hn', if_neg, ite_false, Nat.succ_ne_zero, Nat.add_sub_cancel]
      congr 1
      rw [← succ_mod_via_reset p.length (n - 1) hL, hsub]

/-- C9: for every non-empty pattern and `k ≥ 1`, the `k`-th call to
`PlotPatternManager.advance` returns the pattern character at position
`(k-1) mod length`; in particular `"ABAB"` yields `A,B,A,B` and then `A`
again on the fifth call. -/
theorem advance_returns_cyclic_character :
    (∀ (p : List Char) (k : Nat), p ≠ [] → 1 ≤ k →
      advanceOutput (PlotPatternManager.init p) k =
        p.getD ((k - 1) % p.length) 'A') ∧
    List.map (advanceOutput (PlotPatternManager.init ['A','B','A','B'])) [1,2,3,4,5] =
      ['A','B','A','B','A'] := by
  constructor
  · intro p k hp hk
    have hL : 0 < p.length := List.length_pos.mpr hp
    unfold advanceOutput
    rw [advanceState_init_spec p hp (k - 1), advance_output_val]
    rcases Nat.lt_or_ge k 2 with h2 | h2
    · have hk1 : k = 1 := by omega
      subst hk1
      simp [Nat.not_le.mpr hL, Nat.zero_mod]
    · have hkne : ¬ k - 1 = 0 := by omega
      have hsub : k - 1 - 1 + 1 = k - 1 := by omega
      simp only [hkne, ite_false, if_neg]
      congr 1
      rw [← hsub, succ_mod_via_reset p.length (k - 1 - 1) hL]
      simp [Nat.add_sub_cancel]
  · decide

/-- Witness for C9 at pattern `"ABAB"`, fifth call. -/
theorem advance_returns_cyclic_character_witness :
    advanceOutput (PlotPatternManager.init ['A','B','A','B']) 5 =
      ['A','B','A','B'].getD ((5 - 1) % (4:Nat)) 'A' :=
  advance_returns_cyclic_character.1 ['A','B','A','B'] 5 (by decide) (by decide)

/-- Membership in the peaks list of `analyze_dramatic_arc`. -/
theorem mem_arcPeaks_iff (ts : List ℚ) (i : Nat) (v : ℚ) :
    (i, v) ∈ arcPeaks ts ↔
      0 < i ∧ i + 1 < ts.length ∧ v = ts.getD i 0 ∧
        ts.getD (i - 1) 0 < ts.getD i 0 ∧ ts.getD (i + 1) 0 < ts.getD i 0 := by
  unfold arcPeaks interiorIndices
  simp only [List.mem_filterMap, List.mem_filter, List.mem_range,
    decide_eq_true_eq]
  constructor
  · rintro ⟨j, ⟨hjr, hjc⟩, hif⟩
    split at hif
    · rename_i hcond
      rcases hif with ⟨⟩
      exact ⟨hjc.1, hjc.2, rfl, hcond.1, hcond.2⟩
    · cases hif
  · rintro ⟨h0, h1, hv, hl, hr⟩
    refine ⟨i, ⟨by omega, h0, h1⟩, ?_⟩
    rw [if_pos ⟨hl, hr⟩, hv]

/-- Membership in the valleys list of `analyze_dramatic_arc`. -/
theorem mem_arcValleys_iff (ts : List ℚ) (i : Nat) (v : ℚ) :
    (i, v) ∈ arcValleys ts ↔
      0 < i ∧ i + 1 < ts.length ∧ v = ts.getD i 0 ∧
        ts.getD i 0 < ts.getD (i - 1) 0 ∧ ts.getD i 0 < ts.getD (i + 1) 0 := by
  unfold arcValleys interiorIndices
  simp only [List.mem_filterMap, List.mem_filter, List.mem_range,
    decide_eq_true_eq]
  constructor
  · rintro ⟨j, ⟨hjr, hjc⟩, hif⟩
    split at hif
    · rename_i hcond
      rcases hif with ⟨⟩
      exact ⟨hjc.1, hjc.2, rfl, hcond.1, hcond.2⟩
    · cases hif
  · rintro ⟨h0, h1, hv, hl, hr⟩
    refine ⟨i, ⟨by omega, h0, h1⟩, ?_⟩
    rw [if_pos ⟨hl, hr⟩, hv]

/-- C8: an index is reported as a peak iff it is interior and strictly above
both neighbours, as a valley iff interior and strictly below both (so the
first and last index are never reported); on
`[0.2, 0.5, 0.3, 0.6, 0.9, 0.4]` the peaks are exactly indices 1 and 4 and
the only valley is index 2. -/
theorem arc_detects_strict_interior_extrema :
    (∀ (ts : List ℚ) (i : Nat),
      ((∃ v, (i, v) ∈ arcPeaks ts) ↔
        0 < i ∧ i + 1 < ts.length ∧
          ts.getD (i - 1) 0 < ts.getD i 0 ∧ ts.getD (i + 1) 0 < ts.getD i 0) ∧
      ((∃ v, (i, v) ∈ arcValleys ts) ↔
        0 < i ∧ i + 1 < ts.length ∧
          ts.getD i 0 < ts.getD (i - 1) 0 ∧ ts.getD i 0 < ts.getD (i + 1) 0)) ∧
    arcPeaks [2/10, 5/10, 3/10, 6/10, 9/10, 4/10] = [(1, 5/10), (4, 9/10)] ∧
    arcValleys [2/10, 5/10, 3/10, 6/10, 9/10, 4/10] = [(2, 3/10)] := by
  have hr : List.range 6 = [0,1,2,3,4,5] := by rfl
  refine ⟨fun ts i => ⟨?_, ?_⟩,
    by norm_num [arcPeaks, interiorIndices, hr, List.filterMap_cons],
    by norm_num [arcValleys, interiorIndices, hr, List.filterMap_cons]⟩
  · constructor
    · rintro ⟨v, hv⟩
      have := (mem_arcPeaks_iff ts i v).mp hv
      exact ⟨this.1, this.2.1, this.2.2.2⟩
    · rintro ⟨h0, h1, hl, hr⟩
      exact ⟨ts.getD i 0, (mem_arcPeaks_iff ts i _).mpr ⟨h0, h1, rfl, hl, hr⟩⟩
  · constructor
    · rintro ⟨v, hv⟩
      have := (mem_arcValleys_iff ts i v).mp hv
      exact ⟨this.1, this.2.1, this.2.2.2⟩
    · rintro ⟨h0, h1, hl, hr⟩
      exact ⟨ts.getD i 0, (mem_arcValleys_iff ts i _).mpr ⟨h0, h1, rfl, hl, hr⟩⟩

/-- Python `max` over a non-empty list with strictly increasing first
components: the result is the entry with maximal second component, and on
ties the one with the smallest first component (the earliest). -/
theorem pyMax_cons_first_spec :
    ∀ (l : List (Nat × ℚ)) (a : Nat × ℚ),
      (∀ q ∈ l, a.1 < q.1) → l.Pairwise (fun x y => x.1 < y.1) →
      ∃ m, pyMax (fun p : Nat × ℚ => p.2) (a :: l) = some m ∧
        m ∈ a :: l ∧ (∀ q ∈ a :: l, q.2 ≤ m.2) ∧
        ∀ q ∈ a :: l, q.2 = m.2 → m.1 ≤ q.1
  | [], a, _, _ => ⟨a, rfl, by simp, by simp, by simp⟩
  | e :: t, a, ha, hp => by
    have hstep : ∀ (x y : Nat × ℚ) (r : List (Nat × ℚ)),
        pyMax (fun p : Nat × ℚ => p.2) (x :: y :: r) =
          pyMax (fun p : Nat × ℚ => p.2) ((if x.2 < y.2 then y else x) :: r) := by
      intro x y r
      by_cases hcmp : x.2 < y.2 <;> simp [pyMax, List.foldl_cons, hcmp]
    have hp' := hp.of_cons
    have hae : a.1 < e.1 := ha e (List.mem_cons_self e t)
    have het : ∀ q ∈ t, e.1 < q.1 := (List.pairwise_cons.mp hp).1
    rw [hstep a e t]
    by_cases hcmp : a.2 < e.2
    · rw [if_pos hcmp]
      obtain ⟨m, hm, hmem, hmax, hfirst⟩ := pyMax_cons_first_spec t e het hp'
      have hem : e.2 ≤ m.2 := hmax e (List.mem_cons_self e t)
      refine ⟨m, hm, List.mem_cons_of_mem a hmem, ?_, ?_⟩
      · intro q hq
        rcases List.mem_cons.mp hq with rfl | hq'
        · linarith
        · exact hmax q hq'
      · intro q hq hqe
        rcases List.mem_cons.mp hq with rfl | hq'
        · exfalso; linarith
        · exact hfirst q hq' hqe
    · rw [if_neg hcmp]
      have hea : e.2 ≤ a.2 := le_of_not_lt hcmp
      obtain ⟨m, hm, hmem, hmax, hfirst⟩ :=
        pyMax_cons_first_spec t a (fun q hq => ha q (List.mem_cons_of_mem e hq)) hp'
      have ham : a.2 ≤ m.2 := hmax a (List.mem_cons_self a t)
      refine ⟨m, hm, ?_, ?_, ?_⟩
      · rcases List.mem_cons.mp hmem with rfl | hm'
        · exact List.mem_cons_self m _
        · exact List.mem_cons_of_mem a (List.mem_cons_of_mem e hm')
      · intro q hq
        rcases List.mem_cons.mp hq with rfl | hq'
        · exact ham
        rcases List.mem_cons.mp hq' with rfl | hq''
        · linarith
        · exact hmax q (List.mem_cons_of_mem a hq'')
      · intro q hq hqe
        rcases List.mem_cons.mp hq with rfl | hq'
        · exact hfirst q (List.mem_cons_self q t) hqe
        rcases List.mem_cons.mp hq' with rfl | hq''
        · have haq : a.2 = m.2 := by linarith [hqe ▸ hea]
          have h1 : m.1 ≤ a.1 := hfirst a (List.mem_cons_self a t) haq
          exact le_of_lt (lt_of_le_of_lt h1 hae)
        · exact hfirst q (List.mem_cons_of_mem a hq'') hqe

/-- `pyMax Prod.snd` on a list with strictly increasing indices returns the
first highest-tension entry. -/
theorem pyMax_snd_spec (l : List (Nat × ℚ)) (hl : l ≠ [])
    (hp : l.Pairwise (fun x y => x.1 < y.1)) :
    ∃ m, pyMax (fun p : Nat × ℚ => p.2) l = some m ∧ m ∈ l ∧
      (∀ q ∈ l, q.2 ≤ m.2) ∧ ∀ q ∈ l, q.2 = m.2 → m.1 ≤ q.1 := by
  match l, hl with
  | a :: t, _ =>
    exact pyMax_cons_first_spec t a (List.pairwise_cons.mp hp).1 hp.of_cons

/-- Peak indices strictly increase along the peaks list. -/
theorem arcPeaks_pairwise (ts : List ℚ) :
    (arcPeaks ts).Pairwise (fun x y => x.1 < y.1) := by
  unfold arcPeaks
  rw [List.pairwise_filterMap]
  have hbase : (interiorIndices ts.length).Pairwise (· < ·) :=
    (List.pairwise_lt_range _).filter _
  refine hbase.imp_of_mem ?_
  intro a b _ _ hab x hx y hy
  split at hx
  · rcases hx with ⟨⟩
    split at hy
    · rcases hy with ⟨⟩
      exact hab
    · cases hy
  · cases hx

/-- C1 (amended): `has_climax` is true iff the highest-tension peak - the
earliest one on ties, as Python `max` selects it - has its index past 60%
of the scene count; an arbitrary peak in the final 40% does not suffice. -/
theorem has_climax_iff_top_peak_late (scenes : List SceneData) :
    sceneHasClimax scenes = true ↔
      ∃ p ∈ arcPeaks (arcTensions scenes),
        (∀ q ∈ arcPeaks (arcTensions scenes), q.2 ≤ p.2) ∧
        (∀ q ∈ arcPeaks (arcTensions scenes), q.2 = p.2 → p.1 ≤ q.1) ∧
        (scenes.length : ℚ) * (3/5) < (p.1 : ℚ) := by
  have hlen : (arcTensions scenes).length = scenes.length := List.length_map _ _
  unfold sceneHasClimax hasClimax
  constructor
  · intro h
    rcases hpm : pyMax (fun p : Nat × ℚ => p.2) (arcPeaks (arcTensions scenes))
      with _ | p
    · rw [hpm] at h; cases h
    · rw [hpm, decide_eq_true_eq] at h
      have hne : arcPeaks (arcTensions scenes) ≠ [] := by
        intro hnil
        rw [hnil] at hpm
        cases hpm
      obtain ⟨m, hm, hmem, hmax, hfirst⟩ :=
        pyMax_snd_spec _ hne (arcPeaks_pairwise _)
      rw [hpm] at hm
      cases hm
      refine ⟨p, hmem, hmax, hfirst, ?_⟩
      rw [← hlen]
      exact h
  · rintro ⟨p, hpmem, hpmax, hpfirst, hplate⟩
    have hne : arcPeaks (arcTensions scenes) ≠ [] :=
      List.ne_nil_of_mem hpmem
    obtain ⟨m, hm, hmem, hmax, hfirst⟩ :=
      pyMax_snd_spec _ hne (arcPeaks_pairwise _)
    rw [hm, decide_eq_true_eq]
    have h1 : p.2 = m.2 := le_antisymm (hmax p hpmem) (hpmax m hmem)
    have h2 : m.1 ≤ p.1 := hfirst p hpmem h1
    have h3 : p.1 ≤ m.1 := hpfirst m hmem h1.symm
    have h4 : m.1 = p.1 := le_antisymm h2 h3
    rw [hlen, h4]
    exact hplate

/-- C1 counterexample: on `lateSmallPeakScenes` (10 scenes) the peak at
index 8 lies in the final 40% (8 > 10 x 0.6), yet `has_climax` is false,
because the highest-tension peak sits at index 1. -/
theorem has_climax_any_late_peak_counterexample :
    sceneHasClimax lateSmallPeakScenes = false ∧
      (8, 3/10) ∈ arcPeaks (arcTensions lateSmallPeakScenes) ∧
      (lateSmallPeakScenes.length : ℚ) * (3/5) < ((8 : Nat) : ℚ) := by
  have hts : arcTensions lateSmallPeakScenes =
      [1/10, 9/10, 1/10, 1/10, 1/10, 1/10, 1/10, 1/10, 3/10, 1/10] := by
    norm_num [lateSmallPeakScenes, arcTensions, sceneTension]
  have hr : List.range 10 = [0,1,2,3,4,5,6,7,8,9] := by rfl
  have hpk : arcPeaks (arcTensions lateSmallPeakScenes) = [(1, 9/10), (8, 3/10)] := by
    rw [hts]
    norm_num [arcPeaks, interiorIndices, hr, List.filterMap_cons]
  refine ⟨?_, ?_, ?_⟩
  · unfold sceneHasClimax hasClimax
    rw [hpk]
    have hmax : pyMax (fun p : Nat × ℚ => p.2) [(1, 9/10), (8, 3/10)] =
        some (1, 9/10) := by
      norm_num [pyMax, List.foldl_cons]
    rw [hmax]
    rw [hts]
    norm_num
  · rw [hpk]
    norm_num
  · norm_num [lateSmallPeakScenes]

/-- C3 (amended): `apply` returns a new scene dict with the operator
metadata appended to the operator list, tension `min(1, old + intensity x
0.3)` (old tension defaulting to 0.5), and the consequences appended; but
because `scene_data.copy()` is shallow, when the input scene already holds a
`dramatic_operators` or `consequences` list, the returned dict shares that
list object with the input, so the appends are visible through the input
scene as well; only when those keys are absent is the input left fully
unchanged. -/
theorem apply_shallow_copy_spec (op : DramaticOperator) (h : ListHeap) (s : SceneData)
    (hwf : s.WF h) :
    readOps (op.apply h s).1 (op.apply h s).2 =
        some ((readOps h s).getD [] ++ [OpMeta.mk op.type.value op.name op.intensity]) ∧
      (op.apply h s).2.tension =
        some (min 1 (s.tension.getD (1/2) + op.intensity * (3/10))) ∧
      readCons (op.apply h s).1 (op.apply h s).2 =
        some ((readCons h s).getD [] ++ op.consequences) ∧
      (s.dramatic_operators.isSome →
        readOps (op.apply h s).1 s = readOps (op.apply h s).1 (op.apply h s).2) ∧
      (s.consequences.isSome →
        readCons (op.apply h s).1 s = readCons (op.apply h s).1 (op.apply h s).2) := by
  obtain ⟨hwo, hwc⟩ := hwf
  rcases hO : s.dramatic_operators with _ | r <;>
    rcases hC : s.consequences with _ | rc
  · simp [DramaticOperator.apply, hO, hC, readOps, readCons,
      List.getD_eq_getElem?_getD, List.set_append, List.getElem?_concat_length]
  · have hrc : rc < h.cons.length := hwc rc (by rw [hC]; rfl)
    simp [DramaticOperator.apply, hO, hC, readOps, readCons,
      List.getD_eq_getElem?_getD, List.set_append, List.getElem?_concat_length,
      List.getElem?_set_self hrc]
  · have hr : r < h.ops.length := hwo r (by rw [hO]; rfl)
    simp [DramaticOperator.apply, hO, hC, readOps, readCons,
      List.getD_eq_getElem?_getD, List.set_append, List.getElem?_concat_length,
      List.getElem?_set_self hr]
  · have hr : r < h.ops.length := hwo r (by rw [hO]; rfl)
    have hrc : rc < h.cons.length := hwc rc (by rw [hC]; rfl)
    simp [DramaticOperator.apply, hO, hC, readOps, readCons,
      List.getD_eq_getElem?_getD, List.getElem?_set_self hr,
      List.getElem?_set_self hrc]

/-- C3 counterexample: applying `ominous_warning` to a scene that already
has a `dramatic_operators` list changes what the *input* scene observes -
`apply` does not leave the input scene unchanged. -/
theorem apply_mutates_input_scene_counterexample :
    readOps (ominousWarning.apply aliasedHeap aliasedScene).1 aliasedScene ≠
      readOps aliasedHeap aliasedScene := by
  simp [DramaticOperator.apply, aliasedHeap, aliasedScene, ominousWarning,
    readOps, List.getD_eq_getElem?_getD]

/-- Witness for the amended C3 theorem at `ominous_warning`. -/
theorem apply_shallow_copy_spec_witness :
    readOps (ominousWarning.apply aliasedHeap aliasedScene).1
        (ominousWarning.apply aliasedHeap aliasedScene).2 =
      some ((readOps aliasedHeap aliasedScene).getD [] ++
        [OpMeta.mk ominousWarning.type.value ominousWarning.name
          ominousWarning.intensity]) :=
  (apply_shallow_copy_spec ominousWarning aliasedHeap aliasedScene
    (by constructor <;> simp [aliasedHeap, aliasedScene])).1

end Drama

namespace AgentSim

/-- C4 counterexample: removing an agent id that is not in the agent table
is a silent no-op (`Except.ok` with the state unchanged), not an explicit
failure. -/
theorem remove_agent_unknown_counterexample :
    dictGet quietEngine.agents "ghost" = none ∧
      removeAgent quietEngine "ghost" = Except.ok quietEngine := ⟨rfl, rfl⟩

/-- C4 (amended): `remove_agent` with an agent id absent from the agent
table silently returns the engine state unchanged; no failure is raised. -/
theorem remove_agent_unknown_is_noop (s : EngineState) (agent_id : String)
    (h : dictGet s.agents agent_id = none) :
    removeAgent s agent_id = Except.ok s := by
  unfold removeAgent
  rw [h]

/-- Witness for the amended C4 theorem. -/
theorem remove_agent_unknown_is_noop_witness :
    removeAgent quietEngine "ghost" = Except.ok quietEngine :=
  remove_agent_unknown_is_noop quietEngine "ghost" rfl

/-- C5: `_update_narrative_tension` keeps tension in [0, 1]; an empty event
list decays tension by the factor 0.98; a non-empty list with non-negative
total impact gives `min(1, t + 0.1 x total_impact)`; impacts summing to 1
give `min(1, t + 0.1)`; and five consecutive empty steps from 0.5 yield
`0.5 x 0.98^5`. -/
theorem narrative_tension_update_rule :
    (∀ (t : ℚ) (events : List Event),
      0 ≤ updateNarrativeTension t events ∧ updateNarrativeTension t events ≤ 1) ∧
    (∀ t : ℚ, 0 ≤ t → t ≤ 1 → updateNarrativeTension t [] = t * (49/50)) ∧
    (∀ (t : ℚ) (events : List Event), 0 ≤ t → events ≠ [] →
      0 ≤ (events.map (fun e => e.impact)).sum →
      updateNarrativeTension t events =
        min 1 (t + (events.map (fun e => e.impact)).sum * (1/10))) ∧
    (∀ (t : ℚ) (events : List Event), 0 ≤ t →
      (events.map (fun e => e.impact)).sum = 1 →
      updateNarrativeTension t events = min 1 (t + 1/10)) ∧
    (fun t => updateNarrativeTension t [])^[5] (1/2) = (1/2) * (49/50)^5 := by
  have hempty : ∀ t : ℚ, 0 ≤ t → t ≤ 1 → updateNarrativeTension t [] = t * (49/50) := by
    intro t h0 h1
    simp only [updateNarrativeTension, List.isEmpty_nil, if_true]
    rw [min_eq_right (by nlinarith), max_eq_right (by positivity)]
  have hmain : ∀ (t : ℚ) (events : List Event), 0 ≤ t → events ≠ [] →
      0 ≤ (events.map (fun e => e.impact)).sum →
      updateNarrativeTension t events =
        min 1 (t + (events.map (fun e => e.impact)).sum * (1/10)) := by
    intro t events ht hne hs
    simp only [updateNarrativeTension]
    rw [if_neg (by simpa [List.isEmpty_iff] using hne)]
    rw [← min_assoc, min_self]
    rw [max_eq_right (le_min (by norm_num) (by positivity))]
  refine ⟨?_, hempty, hmain, ?_, ?_⟩
  · intro t events
    simp only [updateNarrativeTension]
    exact ⟨le_max_left 0 _, max_le (by norm_num) (min_le_left _ _)⟩
  · intro t events ht hsum
    have hne : events ≠ [] := by rintro rfl; simp at hsum
    rw [hmain t events ht hne (by rw [hsum]; norm_num), hsum]
    norm_num
  · have e1 : updateNarrativeTension (1/2) [] = 49/100 := by
      rw [hempty (1/2) (by norm_num) (by norm_num)]; norm_num
    have e2 : updateNarrativeTension (49/100) [] = 2401/5000 := by
      rw [hempty (49/100) (by norm_num) (by norm_num)]; norm_num
    have e3 : updateNarrativeTension (2401/5000) [] = 117649/250000 := by
      rw [hempty (2401/5000) (by norm_num) (by norm_num)]; norm_num
    have e4 : updateNarrativeTension (117649/250000) [] = 5764801/12500000 := by
      rw [hempty (117649/250000) (by norm_num) (by norm_num)]; norm_num
    have e5 : updateNarrativeTension (5764801/12500000) [] = 282475249/625000000 := by
      rw [hempty (5764801/12500000) (by norm_num) (by norm_num)]; norm_num
    simp only [Function.iterate_succ_apply, Function.iterate_zero_apply]
    rw [e1, e2, e3, e4, e5]
    norm_num

theorem narrative_tension_update_rule_witness :
    updateNarrativeTension (1/2) [unitImpactEvent] = min 1 (1/2 + 1/10) :=
  narrative_tension_update_rule.2.2.2.1 (1/2) [unitImpactEvent] (by norm_num)
    (by norm_num [unitImpactEvent])


theorem dictGet_dictSet_self {K V : Type} [DecidableEq K] (d : List (K × V))
    (k : K) (v : V) : dictGet (dictSet d k v) k = some v := by
  induction d with
  | nil => simp [dictSet, dictGet]
  | cons e rest ih =>
    by_cases he : e.1 = k
    · simp [dictSet, dictGet, he]
    · simpa [dictSet, dictGet, List.find?_cons, he] using ih

/-- C10: `_update_relationship` initializes a first-contact relationship at
affinity 0.0 / trust 0.5 before applying the interaction; `friendly` adds
0.1 affinity (cap 1.0) and 0.05 trust (cap 1.0), `hostile` subtracts 0.2
affinity (floor -1.0) and 0.1 trust (floor 0), `collaborative` adds 0.15
affinity and 0.1 trust (both capped); every update keeps affinity in
[-1, 1] and trust in [0, 1]. -/
theorem relationship_update_rules :
    (∀ (a : Agent) (tid : String) (ity : Option String) (t : ℚ),
      dictGet a.relationships (some tid) = none →
      ∃ a2, a.updateRelationship (some tid) ity t = Except.ok a2 ∧
        dictGet a2.relationships (some tid) =
          some (applyInteractionToRel
            { character_id := some tid
              character_name := "Character_" ++ String.mk (tid.toList.take 8)
              affinity := 0, trust := 1/2 } ity t)) ∧
    (∀ (rel : Relationship) (t : ℚ),
      (applyInteractionToRel rel (some "friendly") t).affinity =
          min 1 (rel.affinity + 1/10) ∧
        (applyInteractionToRel rel (some "friendly") t).trust =
          min 1 (rel.trust + 1/20) ∧
        (applyInteractionToRel rel (some "hostile") t).affinity =
          max (-1) (rel.affinity - 1/5) ∧
        (applyInteractionToRel rel (some "hostile") t).trust =
          max 0 (rel.trust - 1/10) ∧
        (applyInteractionToRel rel (some "collaborative") t).affinity =
          min 1 (rel.affinity + 3/20) ∧
        (applyInteractionToRel rel (some "collaborative") t).trust =
          min 1 (rel.trust + 1/10)) ∧
    (∀ (rel : Relationship) (ity : Option String) (t : ℚ),
      -1 ≤ rel.affinity → rel.affinity ≤ 1 → 0 ≤ rel.trust → rel.trust ≤ 1 →
      -1 ≤ (applyInteractionToRel rel ity t).affinity ∧
        (applyInteractionToRel rel ity t).affinity ≤ 1 ∧
        0 ≤ (applyInteractionToRel rel ity t).trust ∧
        (applyInteractionToRel rel ity t).trust ≤ 1) := by
  refine ⟨?_, ?_, ?_⟩
  · intro a tid ity t h
    unfold Agent.updateRelationship
    rw [h]
    exact ⟨_, rfl, dictGet_dictSet_self _ _ _⟩
  · intro rel t
    refine ⟨?_, ?_, ?_, ?_, ?_, ?_⟩ <;> simp [applyInteractionToRel]
  · intro rel ity t h1 h2 h3 h4
    unfold applyInteractionToRel
    split_ifs <;>
      refine ⟨?_, ?_, ?_, ?_⟩ <;>
        simp only [le_min_iff, min_le_iff, le_max_iff, max_le_iff] <;>
          first
            | (left; linarith)
            | (right; linarith)
            | (constructor <;> linarith)
            | linarith

/-- Witness for C10 at a concrete first contact and a concrete bounded
relationship. -/
theorem relationship_update_rules_witness :
    (∃ a2, moveyAgent.updateRelationship (some "bob") (some "friendly") 0 =
        Except.ok a2 ∧
      dictGet a2.relationships (some "bob") =
        some (applyInteractionToRel
          { character_id := some "bob"
            character_name := "Character_" ++ String.mk ("bob".toList.take 8)
            affinity := 0, trust := 1/2 } (some "friendly") 0)) ∧
    (-1 ≤ (applyInteractionToRel
        { character_id := some "bob", character_name := "B"
          affinity := 0, trust := 1/2 } (some "friendly") 0).affinity) :=
  ⟨relationship_update_rules.1 moveyAgent "bob" (some "friendly") 0 rfl,
   (relationship_update_rules.2.2
     { character_id := some "bob", character_name := "B"
       affinity := 0, trust := 1/2 } (some "friendly") 0
     (by norm_num) (by norm_num) (by norm_num) (by norm_num)).1⟩



theorem decideFold_payload_mem (a : Agent) (t : ℚ) (noise : Nat → ℚ) :
    ∀ (l : List (Nat × Decision)) (acc : Option (Decision × ℚ)) (b : Decision × ℚ),
      l.foldl
        (fun acc io =>
          let s := scoreAction a io.2 t (noise io.1)
          match acc with
          | none => some (io.2, s)
          | some b => if b.2 < s then some (io.2, s) else acc)
        acc = some b →
      acc = some b ∨ ∃ io ∈ l, b.1 = io.2 := by
  intro l
  induction l with
  | nil => intro acc b h; exact Or.inl h
  | cons e tl ih =>
    intro acc b h
    rw [List.foldl_cons] at h
    rcases ih _ b h with h1 | h2
    · cases acc with
      | none =>
        refine Or.inr ⟨e, List.mem_cons_self e tl, ?_⟩
        have : (some (e.2, scoreAction a e.2 t (noise e.1)) :
            Option (Decision × ℚ)) = some b := h1
        cases this
        rfl
      | some p =>
        by_cases hcmp : p.2 < scoreAction a e.2 t (noise e.1)
        · have : (some (e.2, scoreAction a e.2 t (noise e.1)) :
              Option (Decision × ℚ)) = some b := by
            simpa [hcmp] using h1
          cases this
          exact Or.inr ⟨e, List.mem_cons_self e tl, rfl⟩
        · have : (some p : Option (Decision × ℚ)) = some b := by
            simpa [hcmp] using h1
          exact Or.inl this
    · obtain ⟨io, hio, hb⟩ := h2
      exact Or.inr ⟨io, List.mem_cons_of_mem e hio, hb⟩

theorem decideFold_mem (a : Agent) (t : ℚ) (noise : Nat → ℚ)
    (l : List (Nat × Decision)) (b : Decision × ℚ)
    (h : decideFold a t noise l = some b) : ∃ io ∈ l, b.1 = io.2 := by
  rcases decideFold_payload_mem a t noise l none b h with h1 | h2
  · cases h1
  · exact h2

theorem options_move_destination (a : Agent) (obs : List String) (d : Decision)
    (hd : d ∈ generateActionOptions a obs) (hm : d.type = "move") :
    d.destination = some "random" := by
  unfold generateActionOptions at hd
  simp only [List.mem_append, List.mem_singleton] at hd
  rcases hd with ((((h | h) | h) | h) | h)
  · subst h; exact absurd hm (by decide)
  · split at h
    · rcases List.mem_singleton.mp h with rfl; exact absurd hm (by decide)
    · cases h
  · subst h; rfl
  · split at h
    · rcases List.mem_singleton.mp h with rfl; simp at hm
    · cases h
  · split at h
    · rcases List.mem_singleton.mp h with rfl; exact absurd hm (by decide)
    · cases h

theorem decide_result_cases (a : Agent) (obs : List String) (t : ℚ)
    (noise : Nat → ℚ) :
    (a.decide obs t noise).2 = idleDecision ∨
      (a.decide obs t noise).2 ∈
        generateActionOptions
          (evaluateGoals (updateWorkingMemory
            { a with state := AgentState.deciding } obs t) t) obs := by
  have hsnd : (a.decide obs t noise).2 =
      (match decideFold
          (evaluateGoals (updateWorkingMemory
            { a with state := AgentState.deciding } obs t) t) t noise
          (generateActionOptions
            (evaluateGoals (updateWorkingMemory
              { a with state := AgentState.deciding } obs t) t) obs).enum with
        | some b =>
          if b.2 < (evaluateGoals (updateWorkingMemory
              { a with state := AgentState.deciding } obs t) t).decision_threshold
          then idleDecision else b.1
        | none => idleDecision) := rfl
  rw [hsnd]
  rcases hb : decideFold
      (evaluateGoals (updateWorkingMemory
        { a with state := AgentState.deciding } obs t) t) t noise
      (generateActionOptions
        (evaluateGoals (updateWorkingMemory
          { a with state := AgentState.deciding } obs t) t) obs).enum
    with _ | b
  · exact Or.inl rfl
  · by_cases hth : b.2 <
        (evaluateGoals (updateWorkingMemory
          { a with state := AgentState.deciding } obs t) t).decision_threshold
    · exact Or.inl (if_pos hth)
    · right
      show (if b.2 < (evaluateGoals (updateWorkingMemory
          { a with state := AgentState.deciding } obs t) t).decision_threshold
        then idleDecision else b.1) ∈ _
      rw [if_neg hth]
      obtain ⟨io, hio, hbio⟩ := decideFold_mem _ _ _ _ _ hb
      obtain ⟨i, d⟩ := io
      rw [hbio]
      have hme := List.mem_enum hio
      rw [hme.2]
      exact List.getElem_mem _


/-- C6: every decision of type "move" that `decide` returns carries the
literal destination "random" (the only move option `_generate_action_options`
produces); executing such a decision via `act` leaves the agent's location
unchanged whenever the environment has no location named "random" - as in
the default world configuration. -/
theorem move_decisions_destination_random :
    (∀ (a : Agent) (obs : List String) (t : ℚ) (noise : Nat → ℚ),
      (a.decide obs t noise).2.type = "move" →
      (a.decide obs t noise).2.destination = some "random") ∧
    (∀ (a : Agent) (d : Decision) (env : Environment) (t : ℚ) (dc : Nat),
      d.type = "move" → d.destination = some "random" →
      dictHas env.locations "random" = false →
      ∃ a2 r, a.act d env t dc = Except.ok (a2, r) ∧ a2.location = a.location) ∧
    dictHas (initializeWorld defaultWorldConfig) "random" = false := by
  refine ⟨?_, ?_, by decide⟩
  · intro a obs t noise hmove
    rcases decide_result_cases a obs t noise with h | h
    · rw [h] at hmove
      exact absurd hmove (by decide)
    · exact options_move_destination _ obs _ h hmove
  · intro a d env t dc hty hdest hloc
    simp only [Agent.act, hty, hdest]
    rw [if_neg (show ¬ ("move" : String) = "speak" by decide)]
    simp only [if_true]
    rw [if_neg (show ¬ (¬ ("random" : String) = "" ∧
      dictHas env.locations "random" = true) by simp [hloc])]
    exact ⟨_, _, rfl, rfl⟩


/-- Witness for C6: a concrete fearful, goal-driven agent deterministically
decides to move (destination "random"), and acting on it in the default
world leaves it in the Office. -/
theorem move_decisions_destination_random_witness :
    (moveyAgent.decide [] 0 (fun _ => 0)).2.destination = some "random" ∧
    ∃ a2 r, moveyAgent.act (moveyAgent.decide [] 0 (fun _ => 0)).2
        defaultWorldEnv 0 0 = Except.ok (a2, r) ∧
      a2.location = moveyAgent.location := by
  have hty : (moveyAgent.decide [] 0 (fun _ => 0)).2.type = "move" := by
    simp +decide only [Agent.decide, moveyAgent, updateWorkingMemory, evaluateGoals,
      generateActionOptions, decideFold, scoreAction, idleDecision, pyMax,
      validatePersonality, personalityTraitNames, dictGetD, dictGet,
      Goal.isUrgent, List.foldl_cons, List.foldl_nil, List.enum, List.enumFrom,
      List.find?, decide_False, decide_True, List.map_cons, List.map_nil,
      List.filter_cons, List.filter_nil, List.mergeSort_nil, Option.map_some',
      Option.map_none', Option.getD_some, Option.getD_none, List.isEmpty_cons,
      List.isEmpty_nil, if_false, if_true, List.take_nil, List.drop_nil,
      Bool.false_eq_true, ite_false, ite_true]
    norm_num [List.cons_append, List.nil_append, List.append_nil, List.enum,
      List.enumFrom, List.foldl_cons, List.foldl_nil]
    rw [if_neg (show ¬ ("move" : String) = "idle" by decide)]
    rw [if_neg (show ¬ (("move" : String) = "speak" ∨ ("move" : String) = "interact")
      by decide)]
    rw [if_neg (show ¬ ("move" : String) = "reflect" by decide)]
    norm_num
  have hdest := move_decisions_destination_random.1 moveyAgent [] 0 (fun _ => 0) hty
  exact ⟨hdest, move_decisions_destination_random.2.1 moveyAgent _ defaultWorldEnv
    0 0 hty hdest (by decide)⟩

set_option maxRecDepth 4000

theorem foldl_insert_no_evict (cap : Nat) :
    ∀ (l : List Memory) (init : List Memory),
      init.length + l.length ≤ cap →
      l.foldl (memoryStoreInsert cap) init = init ++ l
  | [], init, _ => by simp
  | x :: t, init, h => by
    rw [List.foldl_cons]
    have h1 : init.length + 1 ≤ cap := by simp at h; omega
    have hstep : memoryStoreInsert cap init x = init ++ [x] := by
      unfold memoryStoreInsert
      rw [if_neg (by simp; omega)]
    rw [hstep, foldl_insert_no_evict cap t (init ++ [x]) (by simp at h ⊢; omega)]
    simp

theorem memoryStoreInsert_length (cap : Nat) (mems : List Memory) (new : Memory) :
    (memoryStoreInsert cap mems new).length = min (mems.length + 1) cap := by
  unfold memoryStoreInsert
  by_cases hc : cap < (mems ++ [new]).length
  · rw [if_pos hc]
    rw [List.length_drop, ((mems ++ [new]).mergeSort_perm _).length_eq]
    simp at hc ⊢
    omega
  · rw [if_neg hc]
    simp at hc ⊢
    omega

theorem storeAfter_foldl_length (cap : Nat) :
    ∀ (l : List Memory) (init : List Memory), init.length ≤ cap →
      (l.foldl (memoryStoreInsert cap) init).length = min (init.length + l.length) cap
  | [], init, h => by simp; omega
  | x :: t, init, h => by
    rw [List.foldl_cons]
    rw [storeAfter_foldl_length cap t (memoryStoreInsert cap init x)
      (by rw [memoryStoreInsert_length]; omega)]
    rw [memoryStoreInsert_length]
    simp
    omega

theorem memoryStoreInsert_evicted_key_le (cap : Nat) (mems : List Memory)
    (new : Memory) (e r : Memory)
    (he : e ∈ mems ++ [new]) (hne : e ∉ memoryStoreInsert cap mems new)
    (hr : r ∈ memoryStoreInsert cap mems new) :
    e.importance * e.decay new.timestamp ≤ r.importance * r.decay new.timestamp := by
  unfold memoryStoreInsert at hne hr
  by_cases hc : cap < (mems ++ [new]).length
  · rw [if_pos hc] at hne hr
    set le := fun m1 m2 : Memory =>
      decide (m1.importance * m1.decay new.timestamp ≤
        m2.importance * m2.decay new.timestamp) with hle
    have htrans : ∀ a b c : Memory, le a b = true → le b c = true → le a c = true := by
      intro a b c
      simp only [hle, decide_eq_true_eq]
      exact le_trans
    have htotal : ∀ a b : Memory, (le a b || le b a) = true := by
      intro a b
      simp only [hle, Bool.or_eq_true, decide_eq_true_eq]
      exact le_total _ _
    have hsorted := List.sorted_mergeSort htrans htotal (mems ++ [new])
    have hperm := (mems ++ [new]).mergeSort_perm le
    set sorted := (mems ++ [new]).mergeSort le with hsdef
    set d := (mems ++ [new]).length - cap with hd
    have hes : e ∈ sorted := hperm.mem_iff.mpr he
    have hes2 : e ∈ sorted.take d ++ sorted.drop d := by
      rw [List.take_append_drop]; exact hes
    have hetake : e ∈ sorted.take d := by
      rcases List.mem_append.mp hes2 with h | h
      · exact h
      · exact absurd h hne
    have hpairs := (List.take_append_drop d sorted) ▸ hsorted
    have := (List.pairwise_append.mp hpairs).2.2 e hetake r hr
    simpa [hle, decide_eq_true_eq] using this
  · rw [if_neg hc] at hne
    exact absurd he hne

theorem storeAfter_succ (cap : Nat) (inserts : List Memory) (k : Nat)
    (hk : k < inserts.length) :
    storeAfter cap inserts (k + 1) =
      memoryStoreInsert cap (storeAfter cap inserts k)
        (inserts.getD k dummyMemory) := by
  unfold storeAfter
  rw [List.take_succ]
  have : inserts[k]? = some (inserts.getD k dummyMemory) := by
    rw [List.getD_eq_getElem?_getD, List.getElem?_eq_getElem hk]
    rfl
  rw [this]
  rw [List.foldl_append]
  rfl

/-- C2 (amended): after 1050 insertions at capacity 1000 the store holds
exactly 1000 memories, and each eviction removes only memories whose *sort
key* `importance x decay` (that is, importance squared times the decay
factor) is no larger than every retained memory's key at the eviction
time; the decayed-importance score itself does not govern eviction. -/
theorem memory_eviction_spec (inserts : List Memory)
    (hlen : inserts.length = 1050) :
    (storeAfter 1000 inserts 1050).length = 1000 ∧
    ∀ k < 1050, ∀ e, EvictedAt 1000 inserts k e →
      ∀ r ∈ storeAfter 1000 inserts (k + 1),
        e.importance * e.decay ((inserts.getD k dummyMemory).timestamp) ≤
          r.importance * r.decay ((inserts.getD k dummyMemory).timestamp) := by
  constructor
  · unfold storeAfter
    rw [storeAfter_foldl_length 1000 _ [] (by simp)]
    simp [hlen]
  · intro k hk e hev r hr
    obtain ⟨hin, hout⟩ := hev
    rw [storeAfter_succ 1000 inserts k (by omega)] at hout hr
    exact memoryStoreInsert_evicted_key_le 1000 _ _ e r hin hout hr


theorem memoryStoreInsert_evict_eq (cap : Nat) (mems : List Memory)
    (new : Memory) (h : cap < mems.length + 1) :
    memoryStoreInsert cap mems new =
      ((mems ++ [new]).mergeSort (fun m1 m2 =>
          decide (m1.importance * m1.decay new.timestamp ≤
            m2.importance * m2.decay new.timestamp))).drop
        (mems.length + 1 - cap) := by
  unfold memoryStoreInsert
  rw [if_pos (by simp; omega)]
  congr 1
  simp

theorem c2_memories_distinct :
    freshMediumMemory ≠ oldStrongMemory ∧ freshMediumMemory ≠ fillerMemory ∧
      oldStrongMemory ≠ fillerMemory := by
  refine ⟨?_, ?_, ?_⟩ <;>
    simp [freshMediumMemory, oldStrongMemory, fillerMemory, Memory.mk.injEq]

theorem c2_take_1000 :
    c2Inserts.take 1000 = oldStrongMemory :: List.replicate 999 fillerMemory := by
  unfold c2Inserts
  have h999 : (List.replicate 999 fillerMemory).length = 999 :=
    List.length_replicate _ _
  rw [show (1000 : Nat) = 999 + 1 from rfl, List.take_succ_cons]
  rw [List.take_left' h999]

theorem c2_length : c2Inserts.length = 1050 := by
  simp [c2Inserts]

theorem c2_get_1000 : c2Inserts.getD 1000 dummyMemory = freshMediumMemory := by
  have hsplit : c2Inserts =
      (oldStrongMemory :: List.replicate 999 fillerMemory) ++
        (freshMediumMemory :: List.replicate 49 tailFillerMemory) := by
    simp [c2Inserts]
  rw [List.getD_eq_getElem?_getD, hsplit]
  rw [List.getElem?_append_right (by simp)]
  simp

theorem c2_pre :
    storeAfter 1000 c2Inserts 1000 =
      oldStrongMemory :: List.replicate 999 fillerMemory := by
  unfold storeAfter
  rw [c2_take_1000]
  simpa using foldl_insert_no_evict 1000
    (oldStrongMemory :: List.replicate 999 fillerMemory) [] (by simp)

/-- C2 counterexample: in the `c2Inserts` scenario, insertion number 1001
evicts `freshMediumMemory` (decayed-importance 1/2 at the eviction time)
while retaining `oldStrongMemory` (decayed-importance 9/20), because the
sort key is `importance x decay`, not the decayed-importance score. -/
theorem memory_eviction_claim_counterexample : ¬ memoryEvictionClaim c2Inserts := by
  rintro ⟨-, hB⟩
  -- the store just before insertion 1000 (0-based), and the inserted memory
  have hpre := c2_pre
  have hget := c2_get_1000
  have hsucc := storeAfter_succ 1000 c2Inserts 1000 (by rw [c2_length]; omega)
  rw [hpre, hget] at hsucc
  -- analyze the eviction
  set ms := (oldStrongMemory :: List.replicate 999 fillerMemory) ++
    [freshMediumMemory] with hms
  set key := fun m : Memory =>
    m.importance * m.decay freshMediumMemory.timestamp with hkey
  set le := fun m1 m2 : Memory =>
    decide (m1.importance * m1.decay freshMediumMemory.timestamp ≤
      m2.importance * m2.decay freshMediumMemory.timestamp) with hle
  have htrans : ∀ a b c : Memory, le a b = true → le b c = true → le a c = true := by
    intro a b c
    simp only [hle, decide_eq_true_eq]
    exact le_trans
  have htotal : ∀ a b : Memory, (le a b || le b a) = true := by
    intro a b
    simp only [hle, Bool.or_eq_true, decide_eq_true_eq]
    exact le_total _ _
  have hsorted := List.sorted_mergeSort htrans htotal ms
  have hperm := ms.mergeSort_perm le
  have hinsert : memoryStoreInsert 1000
      (oldStrongMemory :: List.replicate 999 fillerMemory) freshMediumMemory =
      (ms.mergeSort le).drop 1 := by
    rw [memoryStoreInsert_evict_eq 1000 _ _ (by simp)]
    have hn : (oldStrongMemory :: List.replicate 999 fillerMemory).length + 1 - 1000 = 1 := by
      simp
    rw [hn]
  -- key values
  have hkf : key freshMediumMemory = 1/4 := by
    norm_num [hkey, Memory.decay, freshMediumMemory]
  have hko : key oldStrongMemory = 81/200 := by
    norm_num [hkey, Memory.decay, oldStrongMemory, freshMediumMemory]
  have hkfil : key fillerMemory = 1 := by
    norm_num [hkey, Memory.decay, fillerMemory, freshMediumMemory]
  have hmin : ∀ m ∈ ms, m ≠ freshMediumMemory → key freshMediumMemory < key m := by
    intro m hm hne
    rcases List.mem_append.mp hm with hm | hm
    · rcases List.mem_cons.mp hm with rfl | hm
      · rw [hkf, hko]; norm_num
      · rw [(List.mem_replicate.mp hm).2, hkf, hkfil]; norm_num
    · exact absurd (List.mem_singleton.mp hm) hne
  -- the sorted list starts with the unique minimum
  obtain ⟨h0, t, hst⟩ : ∃ h0 t, ms.mergeSort le = h0 :: t := by
    rcases hcase : ms.mergeSort le with _ | ⟨h0, t⟩
    · have := hperm.length_eq
      rw [hcase] at this
      simp [hms] at this
    · exact ⟨h0, t, rfl⟩
  have hh0 : h0 = freshMediumMemory := by
    by_contra hne
    have hh0mem : h0 ∈ ms := hperm.mem_iff.mp (hst ▸ List.mem_cons_self h0 t)
    have hflt : key freshMediumMemory < key h0 := hmin h0 hh0mem hne
    have hfm : freshMediumMemory ∈ ms.mergeSort le :=
      hperm.mem_iff.mpr (List.mem_append_right _ (List.mem_singleton.mpr rfl))
    rw [hst] at hfm
    rcases List.mem_cons.mp hfm with heq | hmem
    · exact hne heq.symm
    · have hp := hst ▸ hsorted
      have := (List.pairwise_cons.mp hp).1 freshMediumMemory hmem
      rw [hle] at this
      simp only [decide_eq_true_eq] at this
      have : key h0 ≤ key freshMediumMemory := this
      linarith
  -- count argument: freshMediumMemory occurs once, so it is gone from the tail
  have hcount : List.count freshMediumMemory ms = 1 := by
    rw [hms, List.count_append]
    have h1 : List.count freshMediumMemory
        (oldStrongMemory :: List.replicate 999 fillerMemory) = 0 := by
      rw [List.count_eq_zero]
      intro hmem
      rcases List.mem_cons.mp hmem with heq | hmem
      · exact c2_memories_distinct.1 heq
      · exact c2_memories_distinct.2.1 (List.mem_replicate.mp hmem).2
    rw [h1]
    simp
  have hnotint : freshMediumMemory ∉ t := by
    intro hmem
    have hcs : List.count freshMediumMemory (ms.mergeSort le) = 1 :=
      (hperm.count_eq _).trans hcount
    rw [hst, hh0, List.count_cons_self] at hcs
    have := List.count_pos_iff_mem.mpr hmem
    omega
  have holdt : oldStrongMemory ∈ t := by
    have : oldStrongMemory ∈ ms.mergeSort le :=
      hperm.mem_iff.mpr (List.mem_append_left _ (List.mem_cons_self _ _))
    rw [hst] at this
    rcases List.mem_cons.mp this with heq | hmem
    · exact absurd (hh0 ▸ heq.symm) c2_memories_distinct.1
    · exact hmem
  -- feed the claimed property the violating instance
  have hdrop : (ms.mergeSort le).drop 1 = t := by rw [hst]; rfl
  have hpost : storeAfter 1000 c2Inserts 1001 = t := by
    rw [hsucc, hinsert, hdrop]
  have hEv : EvictedAt 1000 c2Inserts 1000 freshMediumMemory := by
    constructor
    · rw [hpre, hget]
      exact List.mem_append_right _ (List.mem_singleton.mpr rfl)
    · rw [show (1000 : Nat) + 1 = 1001 from rfl, hpost]
      exact hnotint
  have hscore := hB 1000 (by omega) freshMediumMemory hEv oldStrongMemory
    (by rw [show (1000 : Nat) + 1 = 1001 from rfl, hpost]; exact holdt)
  rw [hget] at hscore
  norm_num [Memory.decay, freshMediumMemory, oldStrongMemory] at hscore

/-- Witness for the amended C2 theorem at the concrete 1050-insertion
scenario. -/
theorem memory_eviction_spec_witness :
    (storeAfter 1000 c2Inserts 1050).length = 1000 :=
  (memory_eviction_spec c2Inserts c2_length).1

end AgentSim

namespace AgentSim

theorem createEventFromAction_types (t : ℚ) (a : Agent) (r : ActionResult)
    (e : Event) (h : createEventFromAction t a r = some e) :
    e.event_type ∈ ["dialogue", "movement", "interaction"] := by
  unfold createEventFromAction at h
  by_cases h1 : r.action_type = "speak"
  · rw [if_pos h1] at h
    cases h
    simp
  · rw [if_neg h1] at h
    by_cases h2 : r.action_type = "move"
    · rw [if_pos h2] at h
      cases h
      simp
    · rw [if_neg h2] at h
      by_cases h3 : r.action_type = "interact"
      · rw [if_pos h3] at h
        cases h
        simp
      · rw [if_neg h3] at h
        cases h

set_option maxHeartbeats 1000000 in
theorem agentTurn_event_types (relevant : Event → Bool) (env : Environment)
    (rand : AgentRand) (acc : EngineState × List Event) (ag : Agent)
    (s1 : EngineState) (evs : List Event)
    (h : agentTurn relevant env rand acc ag = Except.ok (s1, evs)) :
    ∀ e ∈ evs, e ∈ acc.2 ∨ e.event_type ∈ ["dialogue", "movement", "interaction"] := by
  simp only [agentTurn] at h
  split at h
  · exact absurd h (by simp)
  · next a3 action_result heq =>
    intro e he
    have hevs : evs = acc.2 ++
        (if ¬ action_result.action_type = "idle" then
          createEventFromAction acc.1.current_time a3 action_result
        else none).toList := by
      cases h
      rfl
    rw [hevs] at he
    rcases List.mem_append.mp he with hl | hr
    · exact Or.inl hl
    · right
      rcases hif : (if ¬ action_result.action_type = "idle" then
          createEventFromAction acc.1.current_time a3 action_result
        else none) with _ | ev
      · rw [hif] at hr
        simp at hr
      · rw [hif] at hr
        simp at hr
        subst hr
        by_cases hidle : ¬ action_result.action_type = "idle"
        · rw [if_pos hidle] at hif
          exact createEventFromAction_types _ _ _ _ hif
        · rw [if_neg hidle] at hif
          cases hif

theorem stepLoop_event_types (relevant : Event → Bool) (env : Environment)
    (ar : Nat → AgentRand) :
    ∀ (l : List (Nat × Agent)) (init : Except String (EngineState × List Event)),
      (∀ s0 evs0, init = Except.ok (s0, evs0) →
        ∀ e ∈ evs0, e.event_type ∈ ["dialogue", "movement", "interaction"]) →
      ∀ s1 evs1,
        l.foldl
          (fun (acc : Except String (EngineState × List Event)) ia =>
            match acc with
            | Except.error e => Except.error e
            | Except.ok st => agentTurn relevant env (ar ia.1) st ia.2)
          init = Except.ok (s1, evs1) →
        ∀ e ∈ evs1, e.event_type ∈ ["dialogue", "movement", "interaction"]
  | [], init, hinit, s1, evs1, h => by
    rw [List.foldl_nil] at h
    exact hinit s1 evs1 h
  | ia :: rest, init, hinit, s1, evs1, h => by
    rw [List.foldl_cons] at h
    refine stepLoop_event_types relevant env ar rest _ ?_ s1 evs1 h
    intro s0 evs0 hok e he
    rcases hini : init with err | st
    · rw [hini] at hok
      exact absurd hok (by simp)
    · rw [hini] at hok
      rcases agentTurn_event_types relevant env (ar ia.1) st ia.2 s0 evs0 hok e he with
        hmem | hty
      · exact hinit st.1 st.2 (by rw [hini]) e hmem
      · exact hty

theorem injectDramaticEvent_types (s : EngineState) (c : Nat)
    (sample : List String → List String) (ev : Event)
    (h : injectDramaticEvent s c sample = Except.ok ev) :
    ev.event_type ∈ ["conflict", "revelation", "crisis", "opportunity"] := by
  have hmem : pyChoice dramaticTemplates c
      { type := "", description := "", impact := 0 } ∈ dramaticTemplates := by
    unfold pyChoice
    have hlt : c % dramaticTemplates.length < dramaticTemplates.length :=
      Nat.mod_lt _ (by simp [dramaticTemplates])
    rw [List.getD_eq_getElem _ _ hlt]
    exact List.getElem_mem hlt
  simp only [injectDramaticEvent] at h
  split at h
  · exact absurd h (by simp)
  · next busiest heq =>
    have hty : ev.event_type = (pyChoice dramaticTemplates c
        { type := "", description := "", impact := 0 }).type := by
      cases h
      rfl
    rw [hty]
    simp only [dramaticTemplates, List.mem_cons, List.not_mem_nil, or_false] at hmem
    rcases hmem with h1 | h1 | h1 | h1 <;> simp only [dramaticTemplates] <;>
      rw [h1] <;> simp

theorem simulationStep_trace_types (relevant : Event → Bool) (rand : StepRand)
    (s s1 : EngineState) (se ti : List Event) (inj : Option Event)
    (h : simulationStep relevant rand s = Except.ok (s1, se, ti, inj)) :
    (∀ e ∈ ti, e.event_type ∈ ["dialogue", "movement", "interaction"]) ∧
      (∀ ev, inj = some ev →
        ev.event_type ∈ ["conflict", "revelation", "crisis", "opportunity"]) := by
  simp only [simulationStep] at h
  split at h
  · exact absurd h (by simp)
  · next sA agentEvents heq =>
    have hA : ∀ e ∈ agentEvents, e.event_type ∈ ["dialogue", "movement", "interaction"] :=
      stepLoop_event_types relevant (getEnvironmentState s) rand.agentRand
        (rand.shuffle (dictValues s.agents)).enum (Except.ok (s, []))
        (by intro s0 evs0 hok e he; cases hok; simp at he) sA agentEvents heq
    split at h
    · split at h
      · exact absurd h (by simp)
      · next ev heq2 =>
        have hti : ti = agentEvents ∧ inj = some ev := by
          cases h
          exact ⟨rfl, rfl⟩
        rw [hti.1, hti.2]
        refine ⟨hA, ?_⟩
        intro ev2 hev2
        cases hev2
        exact injectDramaticEvent_types _ _ _ _ heq2
    · have hti : ti = agentEvents ∧ inj = none := by
        cases h
        exact ⟨rfl, rfl⟩
      rw [hti.1, hti.2]
      exact ⟨hA, by intro ev hev; cases hev⟩

theorem runSteps_trace_types (relevant : Event → Bool) :
    ∀ (rands : List StepRand) (s : EngineState),
      ∀ t ∈ (runSteps relevant rands s).2,
        (∀ e ∈ t.tensionInput, e.event_type ∈ ["dialogue", "movement", "interaction"]) ∧
          (∀ ev, t.injected = some ev →
            ev.event_type ∈ ["conflict", "revelation", "crisis", "opportunity"])
  | [], s, t, ht => by
    simp [runSteps] at ht
  | r :: rs, s, t, ht => by
    simp only [runSteps] at ht
    split at ht
    · simp at ht
    · next s1 stepEvents tensionInput injected heq =>
      simp only [List.mem_cons] at ht
      rcases ht with rfl | ht
      · have := simulationStep_trace_types relevant r _ s1 stepEvents tensionInput
          injected heq
        exact this
      · exact runSteps_trace_types relevant rs _ t ht

/-- C7: across an entire run, the list handed to `_update_narrative_tension`
in any step never contains an event created by `_inject_dramatic_event` in
that step or any other step: agent-generated events carry the types
`dialogue`/`movement`/`interaction` while injected events carry one of the
four dramatic-template types, and injection happens only after the step's
tension update, on the events of agent actions only.  (The observation
relevance filter `_is_relevant_event`, absent from the source tree, is
modelled as a parameter; it does not influence which events reach the
tension update.) -/
theorem injected_event_never_in_tension_input (relevant : Event → Bool)
    (rands : List StepRand) (s : EngineState) (t t2 : StepTrace)
    (ht : t ∈ (runSteps relevant rands s).2)
    (ht2 : t2 ∈ (runSteps relevant rands s).2)
    (ev : Event) (hev : t.injected = some ev) :
    ev ∉ t2.tensionInput := by
  intro hmem
  have h1 := (runSteps_trace_types relevant rands s t ht).2 ev hev
  have h2 := (runSteps_trace_types relevant rands s t2 ht2).1 ev hmem
  simp only [List.mem_cons, List.not_mem_nil, or_false] at h1 h2
  rcases h1 with h1 | h1 | h1 | h1 <;> rw [h1] at h2 <;>
    rcases h2 with h2 | h2 | h2 <;> exact absurd h2 (by decide)

theorem hbusiest_eval :
    pyMax
      (fun name =>
        (dictGetD (initializeWorld defaultWorldConfig) name
          { name := "", description := "" }).current_agents.length)
      (dictKeys (initializeWorld defaultWorldConfig)) = some "Office" := by
  decide

theorem c7_run_eval :
    (runSteps relevantAll [injectStepRand] quietEngine).2 =
      [StepTrace.mk [] (some injectedConflictEvent)] := by
  simp only [runSteps, simulationStep, quietEngine, injectStepRand, relevantAll,
    injectDramaticEvent, getEnvironmentState, updateNarrativeTension,
    dictValues, List.map_nil, List.enum, List.enumFrom,
    List.foldl_nil, List.isEmpty_nil, if_true]
  rw [hbusiest_eval]
  norm_num [pyChoice, dramaticTemplates, dictKeys, injectedConflictEvent,
    min_def, max_def]

/-- Witness for C7: on the agentless default world at tension 0.2, the
first step injects the conflict event, and that event is indeed absent
from the (empty) tension input of the step. -/
theorem injected_event_never_in_tension_input_witness :
    StepTrace.mk [] (some injectedConflictEvent) ∈
      (runSteps relevantAll [injectStepRand] quietEngine).2 ∧
    injectedConflictEvent ∉
      (StepTrace.mk [] (some injectedConflictEvent)).tensionInput := by
  have hrun := c7_run_eval
  have hmem : StepTrace.mk [] (some injectedConflictEvent) ∈
      (runSteps relevantAll [injectStepRand] quietEngine).2 := by
    rw [hrun]
    exact List.mem_cons_self _ _
  exact ⟨hmem, injected_event_never_in_tension_input relevantAll [injectStepRand]
    quietEngine _ _ hmem hmem injectedConflictEvent rfl⟩

end AgentSim

namespace Drama

/-- Witness for the amended C1 theorem: six scenes whose unique peak (index
4, tension 0.9) is also the top peak and lies past 60% of the count, so
`has_climax` comes out true. -/
theorem has_climax_iff_top_peak_late_witness :
    sceneHasClimax
      ([1/10, 1/10, 1/10, 1/10, 9/10, 1/10].map
        (fun v => SceneData.mk (some v) none none)) = true := by
  have hts : arcTensions
      ([1/10, 1/10, 1/10, 1/10, 9/10, 1/10].map
        (fun v => SceneData.mk (some v) none none)) =
      [1/10, 1/10, 1/10, 1/10, 9/10, 1/10] := by
    norm_num [arcTensions, sceneTension]
  have hr : List.range 6 = [0, 1, 2, 3, 4, 5] := by rfl
  have hpk : arcPeaks (arcTensions
      ([1/10, 1/10, 1/10, 1/10, 9/10, 1/10].map
        (fun v => SceneData.mk (some v) none none))) = [(4, 9/10)] := by
    rw [hts]
    norm_num [arcPeaks, interiorIndices, hr, List.filterMap_cons]
  refine (has_climax_iff_top_peak_late _).mpr ⟨(4, 9/10), ?_, ?_, ?_, ?_⟩
  · rw [hpk]
    norm_num
  · rw [hpk]
    intro q hq
    simp at hq
    simp [hq]
  · rw [hpk]
    intro q hq _
    simp at hq
    simp [hq]
  · norm_num

/-- Witness for C8 at the spec's example: index 1 of
`[0.2, 0.5, 0.3, 0.6, 0.9, 0.4]` is reported as a peak, as the
characterisation demands of a strict interior maximum. -/
theorem arc_detects_strict_interior_extrema_witness :
    ∃ v, ((1 : Nat), v) ∈ arcPeaks [2/10, 5/10, 3/10, 6/10, 9/10, 4/10] := by
  refine (arc_detects_strict_interior_extrema.1
    [2/10, 5/10, 3/10, 6/10, 9/10, 4/10] 1).1.mpr ?_
  norm_num [List.getD]

end Drama
